import Mathlib

/-!
Verification of the quantitative schedule-risk engine
(`schedule-risk-backend/core`): digital twin / dependency graph,
critical-path method, Monte Carlo forecaster, uncertainty modulator,
skill analyzer, feature derivation and the rule-based risk model.

The Python source is shallowly embedded:
* floats are modelled as exact rationals (`ℚ`);
* Python dictionaries are modelled as insertion-ordered association lists;
* Python `or`-fallback chains on numbers (where `0`/`0.0`/`None` are falsy)
  are modelled explicitly;
* date strings are modelled as already-parsed day ordinals (`Option ℤ`):
  `None`/unparsable dates become `none`;
* exceptions are modelled with `Except`; the `networkx` exception class
  hierarchy is modelled explicitly, because the engine's
  `except nx.NetworkXError` handlers do not match the
  `NetworkXUnfeasible` exception that `nx.topological_sort` raises on a
  cyclic graph (`NetworkXUnfeasible` subclasses `NetworkXAlgorithmError`,
  not `NetworkXError`);
* the stream of pseudo-random numbers drawn by `numpy` is passed in
  explicitly as `rng : ℕ → ℚ` together with a draw counter, and the
  irrational square root used by the triangular inverse CDF and by
  `np.std` is passed in as an abstract function `sq : ℚ → ℚ`.
-/

namespace ScheduleRisk

/-- Python `max(0.0, min(hi, x))`-style clamping used throughout the core. -/
def clamp (lo hi x : ℚ) : ℚ := max lo (min hi x)

/-- Python `max(xs)` for a non-empty list, with a default for `[]`
(callers guard non-emptiness with `if xs`). -/
def listMaxD (xs : List ℚ) (d : ℚ) : ℚ :=
  match xs with
  | [] => d
  | x :: rest => rest.foldl max x

/-- Python `min(xs)` for a non-empty list, with a default for `[]`. -/
def listMinD (xs : List ℚ) (d : ℚ) : ℚ :=
  match xs with
  | [] => d
  | x :: rest => rest.foldl min x

/-- Dictionary lookup with default: Python `d.get(k, default)`. -/
def lookupD {α : Type} (m : List (String × α)) (k : String) (d : α) : α :=
  match m.lookup k with
  | some v => v
  | none => d

/-- Python dict assignment `d[k] = v`: update in place if the key exists,
otherwise append (insertion order preserved). -/
def upsert {α : Type} (m : List (String × α)) (k : String) (v : α) :
    List (String × α) :=
  match m with
  | [] => [(k, v)]
  | (k0, v0) :: rest =>
    if k0 = k then (k0, v) :: rest else (k0, v0) :: upsert rest k v

/-- Python truthiness for an optional number: `None`, `0` and `0.0` are
falsy. -/
def truthyQ (x : Option ℚ) : Bool :=
  match x with
  | none => false
  | some v => v != 0

/-- Python `a or d` for an optional number `a` and a default `d`. -/
def pyOrQ (x : Option ℚ) (d : ℚ) : ℚ :=
  match x with
  | none => d
  | some v => if v = 0 then d else v

/-- Python `a or b or d` fallback chain over optional numbers. -/
def pyOrQ2 (x y : Option ℚ) (d : ℚ) : ℚ :=
  if truthyQ x then pyOrQ x d else pyOrQ y d

/-- Python `a or b or c or d` fallback chain over optional numbers. -/
def pyOrQ3 (x y z : Option ℚ) (d : ℚ) : ℚ :=
  if truthyQ x then pyOrQ x d else pyOrQ2 y z d

/-- Python truthiness for an optional string: `None` and `""` are falsy. -/
def truthyS (x : Option String) : Bool :=
  match x with
  | none => false
  | some s => s != ""

/-- Whitespace test backing the model of Python `str.strip()`. -/
def isSpaceChar (c : Char) : Bool :=
  c = ' ' || c = '\t' || c = '\n' || c = '\r'

/-- Model of Python `str.strip()`: drop leading and trailing
whitespace. -/
def pyStrip (s : String) : String :=
  String.mk (((s.data.dropWhile isSpaceChar).reverse.dropWhile
    isSpaceChar).reverse)

/-- ASCII lower-casing of one character (model of Python `str.lower()`
on the identifier-like strings handled here). -/
def lowerChar (c : Char) : Char :=
  if 'A' ≤ c ∧ c ≤ 'Z' then Char.ofNat (c.toNat + 32) else c

/-- Model of Python `str.lower()`. -/
def pyLower (s : String) : String :=
  String.mk (s.data.map lowerChar)

/-- Model of Python `sep in s` for a one-character separator. -/
def pyContainsChar (s : String) (c : Char) : Bool :=
  s.data.contains c

/-- Character-list splitter backing the model of `str.split(sep)`. -/
def splitCharAux (sep : Char) : List Char → List Char → List (List Char)
  | [], acc => [acc.reverse]
  | c :: rest, acc =>
    if c = sep then acc.reverse :: splitCharAux sep rest []
    else splitCharAux sep rest (c :: acc)

/-- Model of Python `s.split(sep)` for a one-character separator. -/
def pySplit (s : String) (sep : Char) : List String :=
  (splitCharAux sep s.data []).map String.mk

/-- Exception classes that can cross the quantitative engine's function
boundaries in the embedded fragment. -/
inductive PyErr : Type
  | nxUnfeasible
  | valueError
  | indexError
deriving DecidableEq, Repr

instance {ε α : Type} [DecidableEq ε] [DecidableEq α] :
    DecidableEq (Except ε α) := fun x y =>
  match x, y with
  | Except.ok a, Except.ok b =>
    if h : a = b then Decidable.isTrue (by rw [h])
    else Decidable.isFalse (by intro hh; cases hh; exact h rfl)
  | Except.ok _, Except.error _ => Decidable.isFalse (by intro hh; cases hh)
  | Except.error _, Except.ok _ => Decidable.isFalse (by intro hh; cases hh)
  | Except.error e, Except.error f =>
    if h : e = f then Decidable.isTrue (by rw [h])
    else Decidable.isFalse (by intro hh; cases hh; exact h rfl)

/-- Whether an `except nx.NetworkXError:` clause catches a raised
exception.  In networkx, `NetworkXError` and `NetworkXAlgorithmError` are
sibling subclasses of `NetworkXException`, and `NetworkXUnfeasible` (the
exception raised by `nx.topological_sort` on a cyclic graph) derives from
`NetworkXAlgorithmError`.  Hence the handler does not match it. -/
def nxErrorCatches : PyErr → Bool
  | PyErr.nxUnfeasible => false
  | PyErr.valueError => false
  | PyErr.indexError => false

/-- Activity record (`core/models.py`), restricted to the fields the
embedded engine fragment reads.  Date-string fields are modelled as
already-parsed day ordinals. -/
structure Activity : Type where
  activity_id : String
  name : String
  planned_start : Option ℤ
  planned_finish : Option ℤ
  planned_duration : Option ℚ
  baseline_duration : Option ℚ
  remaining_duration : Option ℚ
  percent_complete : ℚ
  total_float : Option ℚ
  risk_probability : ℚ
  risk_delay_impact_days : ℚ
  predecessors : List String
  successors : List String
  on_critical_path : Bool
  resource_id : Option String
  fte_allocation : Option ℚ
  resource_max_fte : Option ℚ
  skill_tags : Option String
deriving DecidableEq, Repr

/-- Directed graph with insertion-ordered node and edge lists
(model of `networkx.DiGraph` as used by the engine). -/
structure Graph : Type where
  nodes : List String
  edges : List (String × String)
deriving DecidableEq, Repr

/-- `graph.add_node(v)`: no-op when the node is already present. -/
def addNode (g : Graph) (v : String) : Graph :=
  if v ∈ g.nodes then g else { g with nodes := g.nodes ++ [v] }

/-- `graph.add_edge(u, v)`: adds missing endpoints, ignores duplicates. -/
def addEdge (g : Graph) (u v : String) : Graph :=
  let g1 := addNode (addNode g u) v
  if (u, v) ∈ g1.edges then g1 else { g1 with edges := g1.edges ++ [(u, v)] }

/-- `graph.predecessors(v)` in edge-insertion order. -/
def predsOf (g : Graph) (v : String) : List String :=
  (g.edges.filter (fun e => e.2 = v)).map (fun e => e.1)

/-- `graph.successors(v)` in edge-insertion order. -/
def succsOf (g : Graph) (v : String) : List String :=
  (g.edges.filter (fun e => e.1 = v)).map (fun e => e.2)

/-- One selection step of Kahn's algorithm: a node of the remaining set
with no incoming edge from a remaining node (a self-loop keeps its node
permanently blocked, as in networkx). -/
def kahnPick (g : Graph) (remaining : List String) : Option String :=
  remaining.find? (fun v =>
    !(g.edges.any (fun e => e.2 == v && remaining.contains e.1)))

/-- Fuelled main loop of Kahn's algorithm. -/
def kahnGo (g : Graph) : ℕ → List String → List String → Option (List String)
  | 0, remaining, acc =>
    if remaining.isEmpty then some acc.reverse else none
  | fuel + 1, remaining, acc =>
    if remaining.isEmpty then some acc.reverse
    else
      match kahnPick g remaining with
      | none => none
      | some v => kahnGo g fuel (remaining.erase v) (v :: acc)

/-- `list(nx.topological_sort(graph))`: `some` order when the graph is
acyclic, `none` when the iteration would raise `NetworkXUnfeasible`. -/
def topoSort (g : Graph) : Option (List String) :=
  kahnGo g g.nodes.length g.nodes []

/-- Walk used to model `nx.simple_cycles`: search for a successor path
from `cur` back to `target`, accumulating the visited path. -/
def cycleSearch (g : Graph) : ℕ → String → String → List String →
    Option (List String)
  | 0, _, _, _ => none
  | fuel + 1, target, cur, path =>
    if (succsOf g cur).contains target then some (path ++ [cur])
    else
      (succsOf g cur).findSome? (fun n =>
        if path.contains n || n == cur then none
        else cycleSearch g fuel target n (path ++ [cur]))

/-- Model of `list(nx.simple_cycles(graph))[0]`: some simple cycle of the
graph, as a node list whose consecutive elements (cyclically) are edges. -/
def findCycle (g : Graph) : Option (List String) :=
  g.nodes.findSome? (fun v => cycleSearch g g.nodes.length v v [])

/-- Warning text built by `DigitalTwin._build` from a concrete cycle:
first five node ids joined by an arrow, an ellipsis when truncated. -/
def mkCycleWarning (cyc : List String) : String :=
  let cycleStr := " -> ".intercalate (cyc.take 5) ++
    (if cyc.length > 5 then "..." else "")
  "Graph contains cycles (e.g., " ++ cycleStr ++
    "). Critical path calculations may be approximate."

/-- Fallback warning text when no concrete cycle is recovered. -/
def genericCycleWarning : String :=
  "Graph contains cycles. Critical path calculations may be approximate."

/-- Digital twin (`core/digital_twin.py`): activity dictionary, dependency
graph, cycle flag and warning. -/
structure DigitalTwin : Type where
  activities : List (String × Activity)
  graph : Graph
  has_cycles : Bool
  cycle_warning : Option String
deriving DecidableEq, Repr

/-- `{a.activity_id: a for a in activities}` with Python dict semantics
(first-occurrence position, last-occurrence value). -/
def buildActivitiesMap (acts : List Activity) : List (String × Activity) :=
  acts.foldl (fun m a => upsert m a.activity_id a) []

/-- Graph construction from `DigitalTwin._build`: one node per activity
id, one edge per non-blank predecessor reference. -/
def buildGraph (m : List (String × Activity)) : Graph :=
  m.foldl (fun g p =>
    let a := p.2
    let g1 := addNode g a.activity_id
    a.predecessors.foldl (fun gacc pred =>
      if pyStrip pred ≠ "" then addEdge gacc pred a.activity_id else gacc) g1)
    { nodes := [], edges := [] }

/-- `DigitalTwin(activities)` construction (`__init__` plus `_build`).
On a cyclic graph, `list(nx.topological_sort(...))` raises
`NetworkXUnfeasible`; the surrounding `except nx.NetworkXError:` clause
does not match that class, so construction propagates the exception
(the cycle-flag branch below the guard is unreachable). -/
def digitalTwinNew (acts : List Activity) : Except PyErr DigitalTwin :=
  let m := buildActivitiesMap acts
  let g := buildGraph m
  match topoSort g with
  | some _ =>
    Except.ok { activities := m, graph := g, has_cycles := false,
                cycle_warning := none }
  | none =>
    if nxErrorCatches PyErr.nxUnfeasible then
      Except.ok { activities := m, graph := g, has_cycles := true,
                  cycle_warning := some (match findCycle g with
                    | some cyc => mkCycleWarning cyc
                    | none => genericCycleWarning) }
    else Except.error PyErr.nxUnfeasible

/-- `get_or_build_twin(project_id, activities)` with the module-level
`DIGITAL_TWINS` cache made explicit: the cache is keyed by project id
only, and a cache hit returns the stored twin without looking at the
newly supplied activities. -/
def get_or_build_twin (cache : List (String × DigitalTwin)) (projectId : String)
    (acts : Option (List Activity)) :
    Except PyErr (DigitalTwin × List (String × DigitalTwin)) :=
  match cache.lookup projectId with
  | some twin => Except.ok (twin, cache)
  | none =>
    match acts with
    | none => Except.error PyErr.valueError
    | some a =>
      match digitalTwinNew a with
      | Except.error e => Except.error e
      | Except.ok twin => Except.ok (twin, upsert cache projectId twin)

/-- Forward pass of `compute_critical_path_length` /
`compute_critical_path_activities`: earliest start/finish accumulated over
the topological order; nodes without a simulated duration are skipped and
missing predecessor finishes default to `0.0`. -/
def forwardPass (g : Graph) (durs : List (String × ℚ)) :
    List String → List (String × ℚ) × List (String × ℚ) →
    List (String × ℚ) × List (String × ℚ)
  | [], acc => acc
  | node :: rest, (es, ef) =>
    match durs.lookup node with
    | none => forwardPass g durs rest (es, ef)
    | some d =>
      let predFinishes := (predsOf g node).map (fun p => lookupD ef p 0)
      let start := if predFinishes.isEmpty then 0 else listMaxD predFinishes 0
      forwardPass g durs rest (es ++ [(node, start)], ef ++ [(node, start + d)])

/-- Project finish: `max(earliest_finish.values()) if earliest_finish
else 0.0`. -/
def projectFinishOf (ef : List (String × ℚ)) : ℚ :=
  if ef.isEmpty then 0 else listMaxD (ef.map (fun p => p.2)) 0

/-- Backward pass of `compute_critical_path_activities`: latest
start/finish accumulated over the reversed topological order; missing
successor starts default to the project finish. -/
def backwardPass (g : Graph) (durs : List (String × ℚ)) (projectFinish : ℚ) :
    List String → List (String × ℚ) × List (String × ℚ) →
    List (String × ℚ) × List (String × ℚ)
  | [], acc => acc
  | node :: rest, (ls, lf) =>
    match durs.lookup node with
    | none => backwardPass g durs projectFinish rest (ls, lf)
    | some d =>
      let succStarts := (succsOf g node).map (fun s => lookupD ls s projectFinish)
      let fin := if succStarts.isEmpty then projectFinish
                 else listMinD succStarts projectFinish
      backwardPass g durs projectFinish rest (ls ++ [(node, fin - d)], lf ++ [(node, fin)])

/-- `compute_critical_path_length(graph, activities, simulated_durations)`.
On a cyclic graph the topological sort raises `NetworkXUnfeasible`, which
the `except nx.NetworkXError:` clause does not catch, so the max-duration
fallback is unreachable and the exception propagates. -/
def compute_critical_path_length (g : Graph) (durs : List (String × ℚ)) :
    Except PyErr ℚ :=
  match topoSort g with
  | some order =>
    let ef := (forwardPass g durs order ([], [])).2
    Except.ok (if ef.isEmpty then 0 else listMaxD (ef.map (fun p => p.2)) 0)
  | none =>
    if nxErrorCatches PyErr.nxUnfeasible then
      Except.ok (if durs.isEmpty then 0 else listMaxD (durs.map (fun p => p.2)) 0)
    else Except.error PyErr.nxUnfeasible

/-- Earliest-start dictionary produced by the forward pass over a given
topological order. -/
def earliestStartMap (g : Graph) (durs : List (String × ℚ))
    (ord : List String) : List (String × ℚ) :=
  (forwardPass g durs ord ([], [])).1

/-- Project finish time for a given order: maximum earliest finish. -/
def projectFinishFor (g : Graph) (durs : List (String × ℚ))
    (ord : List String) : ℚ :=
  projectFinishOf (forwardPass g durs ord ([], [])).2

/-- Latest-start dictionary produced by the backward pass over the
reversed order. -/
def latestStartMap (g : Graph) (durs : List (String × ℚ))
    (ord : List String) : List (String × ℚ) :=
  (backwardPass g durs (projectFinishFor g durs ord) ord.reverse ([], [])).1

/-- `compute_critical_path_activities(...)`: the set of nodes with
`|ES - LS| < 0.01` for the given duration assignment, represented in
topological order (the Python function returns a set).  Same exception
behaviour as the length computation on cyclic graphs. -/
def compute_critical_path_activities (g : Graph) (durs : List (String × ℚ)) :
    Except PyErr (List String) :=
  match topoSort g with
  | some order =>
    Except.ok (order.filter (fun node =>
      (durs.lookup node).isSome &&
        |lookupD (earliestStartMap g durs order) node 0 -
          lookupD (latestStartMap g durs order) node
            (projectFinishFor g durs order)| < 1 / 100))
  | none =>
    if nxErrorCatches PyErr.nxUnfeasible then Except.ok []
    else Except.error PyErr.nxUnfeasible

/-- Inverse CDF of the triangular distribution as drawn by
`np.random.triangular(lo, mode, hi)` from one uniform variate `u`, with
the square root supplied as an abstract function `sq`.  `numpy` validates
`lo ≤ mode ≤ hi`; callers perform that check and raise `ValueError`
otherwise. -/
def triangularInv (sq : ℚ → ℚ) (lo mode hi u : ℚ) : ℚ :=
  if hi ≤ lo then mode
  else if u * (hi - lo) < mode - lo then lo + sq (u * (hi - lo) * (mode - lo))
  else hi - sq ((1 - u) * (hi - lo) * (hi - mode))

/-- Per-activity simulation parameters produced by the uncertainty
modulator (`modulate_uncertainty` return dictionary). -/
structure UncertaintyParams : Type where
  mode_shift_factor : ℚ
  variance_multiplier : ℚ
  failure_probability : ℚ
  base_duration : ℚ
deriving DecidableEq, Repr

/-- Base duration fallback chain
`activity.remaining_duration or activity.planned_duration or
activity.baseline_duration or 1.0`, followed by the
`if base_duration <= 0` guard. -/
def baseDurationOf (a : Activity) : ℚ :=
  let base := pyOrQ3 a.remaining_duration a.planned_duration a.baseline_duration 1
  if base ≤ 0 then 1 else base

/-- Standard-mode duration draw (`simulate_activity_duration` without
uncertainty params, one sample): consumes one uniform variate and returns
the draw together with the advanced counter. -/
def simulateStandard (sq : ℚ → ℚ) (rng : ℕ → ℚ) (i : ℕ) (a : Activity) :
    Except PyErr (ℚ × ℕ) :=
  let base := baseDurationOf a
  let riskProbability := pyOrQ (some a.risk_probability) 0
  let riskDelayImpact := pyOrQ (some a.risk_delay_impact_days) 0
  let expectedDelay := riskProbability * riskDelayImpact
  let uncertaintyFromRisk :=
    if expectedDelay > 0 ∧ base > 0 then min (1 / 2) (expectedDelay / base) else 0
  let uncertainty := max (1 / 5) uncertaintyFromRisk
  let minDuration := max (1 / 10) (base * (1 - uncertainty))
  let modeDuration := base
  let maxDuration := base * (1 + uncertainty)
  let d := triangularInv sq minDuration modeDuration maxDuration (rng i)
  if minDuration ≤ modeDuration ∧ modeDuration ≤ maxDuration then
    Except.ok (max (1 / 10) d, i + 1)
  else Except.error PyErr.valueError

/-- Modulated mode `base_duration * (1.0 + mode_shift)` from
`simulate_activity_duration_forensic` (the distribution mode before
variance widening). -/
def forensicModulatedMode (p : UncertaintyParams) : ℚ :=
  p.base_duration * (1 + p.mode_shift_factor)

/-- Forensic-mode duration draw (`simulate_activity_duration_forensic`,
one sample): triangular draw around the shifted mode, then a failure
event with probability `failure_probability` multiplying the draw by
`1 + U(0.5, 1.0)`. -/
def simulateForensic (sq : ℚ → ℚ) (rng : ℕ → ℚ) (i : ℕ)
    (p : UncertaintyParams) : Except PyErr (ℚ × ℕ) :=
  let modulatedMode := forensicModulatedMode p
  let modulatedUncertainty := min (1 / 2) ((1 / 5) * p.variance_multiplier)
  let minDuration := max (1 / 10) (modulatedMode * (1 - modulatedUncertainty))
  let maxDuration := modulatedMode * (1 + modulatedUncertainty)
  let d := triangularInv sq minDuration modulatedMode maxDuration (rng i)
  if minDuration ≤ modulatedMode ∧ modulatedMode ≤ maxDuration then
    if p.failure_probability > 0 then
      if rng (i + 1) < p.failure_probability then
        Except.ok (max (1 / 10) (d * (1 + (1 / 2 + rng (i + 2) * (1 / 2)))),
          i + 3)
      else Except.ok (max (1 / 10) d, i + 2)
    else Except.ok (max (1 / 10) d, i + 1)
  else Except.error PyErr.valueError

/-- `simulate_activity_duration(activity, 1, uncertainty_params)`:
dispatch between the standard and forensic samplers. -/
def simulate_activity_duration (sq : ℚ → ℚ) (rng : ℕ → ℚ) (i : ℕ)
    (a : Activity) (params : Option UncertaintyParams) :
    Except PyErr (ℚ × ℕ) :=
  match params with
  | some p => simulateForensic sq rng i p
  | none => simulateStandard sq rng i a

/-- Per-activity parameter lookup inside the run loop:
`uncertainty_params_map.get(activity_id) if uncertainty_params_map else
None`. -/
def paramsFor (paramsMap : Option (List (String × UncertaintyParams)))
    (activityId : String) : Option UncertaintyParams :=
  match paramsMap with
  | some m => m.lookup activityId
  | none => none

/-- One simulation run's duration draws for all activities, in activity
dictionary order, threading the draw counter. -/
def simulateAll (sq : ℚ → ℚ) (rng : ℕ → ℚ)
    (paramsMap : Option (List (String × UncertaintyParams))) :
    List (String × Activity) → ℕ → Except PyErr (List (String × ℚ) × ℕ)
  | [], i => Except.ok ([], i)
  | (activityId, a) :: rest, i =>
    match simulate_activity_duration sq rng i a (paramsFor paramsMap activityId) with
    | Except.error e => Except.error e
    | Except.ok (d, i1) =>
      match simulateAll sq rng paramsMap rest i1 with
      | Except.error e => Except.error e
      | Except.ok (ds, i2) => Except.ok ((activityId, d) :: ds, i2)

/-- Criticality tally update: `for id in critical: counts[id] += 1`
for ids already present in the counts dictionary. -/
def bumpTallies (tallies : List (String × ℕ)) (critical : List String) :
    List (String × ℕ) :=
  tallies.map (fun p => if critical.contains p.1 then (p.1, p.2 + 1) else p)

/-- The Monte Carlo run loop: accumulates the project-finish-time sample
(in run order) and the per-activity critical-path tallies. -/
def runSimulations (sq : ℚ → ℚ) (rng : ℕ → ℚ)
    (acts : List (String × Activity)) (g : Graph)
    (paramsMap : Option (List (String × UncertaintyParams))) :
    ℕ → ℕ → List ℚ → List (String × ℕ) →
    Except PyErr (List ℚ × List (String × ℕ) × ℕ)
  | 0, i, pds, tallies => Except.ok (pds, tallies, i)
  | runsLeft + 1, i, pds, tallies =>
    match simulateAll sq rng paramsMap acts i with
    | Except.error e => Except.error e
    | Except.ok (simDurs, i1) =>
      match compute_critical_path_length g simDurs with
      | Except.error e => Except.error e
      | Except.ok pd =>
        match compute_critical_path_activities g simDurs with
        | Except.error e => Except.error e
        | Except.ok critical =>
          runSimulations sq rng acts g paramsMap runsLeft i1
            (pds ++ [pd]) (bumpTallies tallies critical)

/-- Python `int(x)`: truncation toward zero. -/
def pyInt (q : ℚ) : ℤ := if q < 0 then -⌊-q⌋ else ⌊q⌋

/-- Linear interpolation of a sorted sample at fractional index `h`
(the core of `np.percentile`'s default interpolation). -/
def interpAt (s : List ℚ) (h : ℚ) : ℚ :=
  let i := (Int.floor h).toNat
  let j := min (i + 1) (s.length - 1)
  let lowVal := s.getD i 0
  let highVal := s.getD j 0
  lowVal + (h - (i : ℚ)) * (highVal - lowVal)

/-- `np.percentile(sample, q)` with the default linear interpolation:
sort the sample, interpolate at fractional index `(n - 1) * q / 100`. -/
def percentile (l : List ℚ) (q : ℚ) : ℚ :=
  let s := l.mergeSort (fun a b => a ≤ b)
  if s.length = 0 then 0
  else interpAt s (((s.length : ℚ) - 1) * q / 100)

/-- Overall project progress computed at the end of
`monte_carlo_forecast` (planned-duration-weighted percent complete,
clamped and converted to a percentage). -/
def currentProgress (acts : List (String × Activity)) : ℚ :=
  let step := fun (acc : ℚ × ℚ × List ℚ) (p : String × Activity) =>
    let a := p.2
    let pc := clamp 0 100 (pyOrQ (some a.percent_complete) 0)
    let duration := pyOrQ2 a.planned_duration a.baseline_duration 1
    let progressValues := acc.2.2 ++ [pc]
    if duration > 0 then
      (acc.1 + duration, acc.2.1 + pc / 100 * duration, progressValues)
    else (acc.1, acc.2.1, progressValues)
  let res := acts.foldl step (0, 0, [])
  let totalWeight := res.1
  let weightedProgress := res.2.1
  let progressValues := res.2.2
  let current :=
    if totalWeight > 0 then weightedProgress / totalWeight
    else if ¬progressValues.isEmpty then
      (progressValues.foldl (· + ·) 0 / (progressValues.length : ℚ)) / 100
    else 0
  clamp 0 1 current * 100

/-- Forecast result dictionary returned by `monte_carlo_forecast`. -/
structure ForecastResult : Type where
  p50 : ℤ
  p80 : ℤ
  p90 : ℤ
  p95 : ℤ
  mean : ℚ
  std : ℚ
  minDur : ℚ
  maxDur : ℚ
  current : ℚ
  criticality_indices : List (String × ℚ)
  num_simulations : ℕ
  forensic_modulation_applied : Bool
deriving DecidableEq, Repr

/-- `monte_carlo_forecast(twin, num_simulations, uncertainty_params_map)`.
With zero simulations the percentile computation on an empty array would
raise, modelled as `indexError`. -/
def monte_carlo_forecast (sq : ℚ → ℚ) (rng : ℕ → ℚ) (twin : DigitalTwin)
    (numSimulations : ℕ)
    (paramsMap : Option (List (String × UncertaintyParams))) :
    Except PyErr ForecastResult :=
  let acts := twin.activities
  let tallies0 := acts.map (fun p => (p.1, (0 : ℕ)))
  match runSimulations sq rng acts twin.graph paramsMap numSimulations 0 [] tallies0 with
  | Except.error e => Except.error e
  | Except.ok (pds, tallies, _) =>
    if pds.isEmpty then Except.error PyErr.indexError
    else
      Except.ok
        { p50 := pyInt (percentile pds 50)
          p80 := pyInt (percentile pds 80)
          p90 := pyInt (percentile pds 90)
          p95 := pyInt (percentile pds 95)
          mean := pds.foldl (· + ·) 0 / (pds.length : ℚ)
          std := sq ((pds.map (fun x =>
            (x - pds.foldl (· + ·) 0 / (pds.length : ℚ)) ^ 2)).foldl (· + ·) 0 /
              (pds.length : ℚ))
          minDur := listMinD pds 0
          maxDur := listMaxD pds 0
          current := currentProgress acts
          criticality_indices :=
            tallies.map (fun p => (p.1, (p.2 : ℚ) / (numSimulations : ℚ)))
          num_simulations := numSimulations
          forensic_modulation_applied := paramsMap.isSome }

/-- Drift-velocity entry of the enriched feature dictionary
(`enriched_features["drift_velocity"]`); `none` models a missing or
non-dictionary entry. -/
structure DriftVelocityData : Type where
  mode_shift_factor : ℚ
deriving DecidableEq, Repr

/-- Cost-performance entry of the enriched feature dictionary. -/
structure CostPerformanceData : Type where
  risk_event_probability : ℚ
deriving DecidableEq, Repr

/-- The slice of the enriched feature dictionary read by
`modulate_uncertainty`. -/
structure EnrichedFeatures : Type where
  drift_velocity : Option DriftVelocityData
  cost_performance : Option CostPerformanceData
deriving DecidableEq, Repr

/-- Fixed archetype characteristics dictionary
(`get_risk_archetype_characteristics` in `core/risk_clustering.py`). -/
structure ArchetypeCharacteristics : Type where
  failure_probability : ℚ
  variance_multiplier : ℚ
  mode_shift_factor : ℚ
deriving DecidableEq, Repr

/-- Archetype lookup table: 0 stable, 1 watch, 2 burnout, 3 failure;
unknown cluster ids default to archetype 0. -/
def get_risk_archetype_characteristics (clusterId : ℤ) :
    ArchetypeCharacteristics :=
  if clusterId = 0 then ⟨5 / 100, 1, 0⟩
  else if clusterId = 1 then ⟨15 / 100, 12 / 10, 1 / 10⟩
  else if clusterId = 2 then ⟨30 / 100, 15 / 10, 2 / 10⟩
  else if clusterId = 3 then ⟨50 / 100, 2, 3 / 10⟩
  else ⟨5 / 100, 1, 0⟩

/-- Per-activity topology metrics entry, restricted to the field read by
the modulator. -/
structure TopologyMetrics : Type where
  variance_multiplier : ℚ
deriving DecidableEq, Repr

/-- Skill analysis result dictionary returned by `check_skill_overload`. -/
structure SkillBottleneck : Type where
  skill : String
  resource_id : String
  total_fte_demand : ℚ
  max_fte : ℚ
  overload_pct : ℚ
  activities : List String
  time_window_start : ℤ
  time_window_end : ℤ
deriving DecidableEq, Repr

/-- Aggregate result of `check_skill_overload`. -/
structure SkillAnalysis : Type where
  skill_bottlenecks : List SkillBottleneck
  activity_skill_risks : List (String × List String)
  variance_increase_map : List (String × ℚ)
deriving DecidableEq, Repr

/-- Drift mode-shift signal:
`enriched_features.get("drift_velocity", {}).get("mode_shift_factor", 0.0)`. -/
def driftModeShiftOf (ef : EnrichedFeatures) : ℚ :=
  match ef.drift_velocity with
  | some d => d.mode_shift_factor
  | none => 0

/-- CPI failure-probability signal:
`enriched_features.get("cost_performance", {}).get("risk_event_probability", 0.0)`. -/
def cpiFailureProbOf (ef : EnrichedFeatures) : ℚ :=
  match ef.cost_performance with
  | some c => c.risk_event_probability
  | none => 0

/-- Skill variance signal:
`skill_analysis.get("variance_increase_map", {}).get(activity_id, 1.0)`. -/
def skillVarianceOf (skillAnalysis : SkillAnalysis) (activityId : String) : ℚ :=
  lookupD skillAnalysis.variance_increase_map activityId 1

/-- Topology variance signal:
`topology_metrics.get(activity_id, {}).get("variance_multiplier", 1.0)`. -/
def topologyVarianceOf (topologyMetrics : List (String × TopologyMetrics))
    (activityId : String) : ℚ :=
  match topologyMetrics.lookup activityId with
  | some t => t.variance_multiplier
  | none => 1

/-- `modulate_uncertainty(activity, enriched_features, risk_archetype,
topology_metrics, skill_analysis)` (`core/uncertainty_modulator.py`):
additive mode shift, multiplicative variance, max failure probability,
fallback-chain base duration. -/
def modulate_uncertainty (a : Activity) (enrichedFeatures : EnrichedFeatures)
    (riskArchetype : ArchetypeCharacteristics)
    (topologyMetrics : List (String × TopologyMetrics))
    (skillAnalysis : SkillAnalysis) : UncertaintyParams :=
  let baseDuration := baseDurationOf a
  let driftModeShift := driftModeShiftOf enrichedFeatures
  let skillVariance := skillVarianceOf skillAnalysis a.activity_id
  let topologyVariance := topologyVarianceOf topologyMetrics a.activity_id
  let archetypeModeShift := riskArchetype.mode_shift_factor
  let archetypeVariance := riskArchetype.variance_multiplier
  let archetypeFailureProb := riskArchetype.failure_probability
  let cpiFailureProb := cpiFailureProbOf enrichedFeatures
  { mode_shift_factor := driftModeShift + archetypeModeShift
    variance_multiplier := skillVariance * topologyVariance * archetypeVariance
    failure_probability := max archetypeFailureProb cpiFailureProb
    base_duration := baseDuration }

/-- `parse_skill_tags`: split on a semicolon if present, else on a comma,
lower-cased and trimmed; a separator-free string is a single skill. -/
def parse_skill_tags (skillTags : Option String) : List String :=
  match skillTags with
  | none => []
  | some s =>
    if s = "" then []
    else
      let pieces :=
        if pyContainsChar s ';' then
          ((pySplit s ';').map (fun t => pyLower (pyStrip t))).filter
            (fun t => t ≠ "")
        else if pyContainsChar s ',' then
          ((pySplit s ',').map (fun t => pyLower (pyStrip t))).filter
            (fun t => t ≠ "")
        else []
      if pieces.isEmpty then [pyLower (pyStrip s)] else pieces

/-- Accumulated FTE demand for one `(skill, resource)` key
(`skill_demand[key]` in `check_skill_overload`). -/
structure SkillDemandData : Type where
  total_fte : ℚ
  max_fte : ℚ
  activities : List (String × ℚ)
  time_window_start : ℤ
  time_window_end : ℤ
deriving DecidableEq, Repr

/-- One inner-loop step of the demand accumulation: create the entry on
first contact, then add the FTE, append the contributing activity and
widen the time window. -/
def addDemand (m : List ((String × String) × SkillDemandData))
    (k : String × String) (activityId : String) (fte maxFte : ℚ)
    (plannedStart plannedFinish : ℤ) :
    List ((String × String) × SkillDemandData) :=
  match m with
  | [] => [(k, { total_fte := fte, max_fte := maxFte,
                 activities := [(activityId, fte)],
                 time_window_start := plannedStart,
                 time_window_end := plannedFinish })]
  | (k0, d) :: rest =>
    if k0 = k then
      (k0, { d with total_fte := d.total_fte + fte,
                    activities := d.activities ++ [(activityId, fte)],
                    time_window_start := min d.time_window_start plannedStart,
                    time_window_end := max d.time_window_end plannedFinish }) :: rest
    else (k0, d) :: addDemand rest k activityId fte maxFte plannedStart plannedFinish

/-- Per-activity step of the demand accumulation loop: activities
without skill tags, resource id or a parsed planned window are skipped;
each parsed skill occurrence contributes the activity's FTE. -/
def buildStep (m : List ((String × String) × SkillDemandData))
    (a : Activity) : List ((String × String) × SkillDemandData) :=
  if !truthyS a.skill_tags || !truthyS a.resource_id then m
  else
    let skills := parse_skill_tags a.skill_tags
    if skills.isEmpty then m
    else
      match a.planned_start, a.planned_finish with
      | some ps, some pf =>
        let fte := pyOrQ a.fte_allocation 0
        let maxFte := pyOrQ a.resource_max_fte 1
        let rid := a.resource_id.getD ""
        skills.foldl (fun macc skill =>
          addDemand macc (skill, rid) a.activity_id fte maxFte ps pf) m
      | _, _ => m

/-- Demand matrix built by the first loop of `check_skill_overload`. -/
def build_skill_demand (acts : List Activity) :
    List ((String × String) × SkillDemandData) :=
  acts.foldl buildStep []

/-- Accumulated FTE demand stored in the matrix for a key (`0` when the
key is absent). -/
def demandTotalOf (m : List ((String × String) × SkillDemandData))
    (k : String × String) : ℚ :=
  match m.lookup k with
  | some d => d.total_fte
  | none => 0

/-- Round-half-to-even on a rational (model of Python `round`). -/
def roundHalfEven (x : ℚ) : ℤ :=
  let f := ⌊x⌋
  let r := x - (f : ℚ)
  if r < 1 / 2 then f
  else if r > 1 / 2 then f + 1
  else if f % 2 = 0 then f else f + 1

/-- Python `round(x, 1)`. -/
def round1 (x : ℚ) : ℚ := (roundHalfEven (x * 10) : ℚ) / 10

/-- Python `round(x, 2)`. -/
def round2 (x : ℚ) : ℚ := (roundHalfEven (x * 100) : ℚ) / 100

/-- Entries of the demand matrix whose accumulated FTE demand exceeds the
recorded max FTE (the bottleneck condition `total_fte > max_fte`). -/
def overloadedEntries (tbl : List ((String × String) × SkillDemandData)) :
    List ((String × String) × SkillDemandData) :=
  tbl.filter (fun e => e.2.total_fte > e.2.max_fte)

/-- Bottleneck record assembled for an overloaded `(skill, resource)`
entry, with the rounding performed by the source. -/
def mkBottleneck (k : String × String) (d : SkillDemandData) : SkillBottleneck :=
  { skill := k.1
    resource_id := k.2
    total_fte_demand := round2 d.total_fte
    max_fte := round2 d.max_fte
    overload_pct := round1 (d.total_fte / d.max_fte * 100)
    activities := d.activities.map (fun p => p.1)
    time_window_start := d.time_window_start
    time_window_end := d.time_window_end }

/-- Append a skill to an activity's risk list unless already present. -/
def addSkillIfAbsent (l : List String) (s : String) : List String :=
  if s ∈ l then l else l ++ [s]

/-- Per-contributing-activity update inside one bottleneck: append the
bottleneck's skill to the activity's risk list unless present, then
recompute the variance multiplier
`1 + 0.2 × (number of distinct overloaded skills)`, capped at `2.0`. -/
def riskStep (sk : String)
    (rv : List (String × List String) × List (String × ℚ))
    (ad : String × ℚ) :
    List (String × List String) × List (String × ℚ) :=
  let aid := ad.1
  let newSkills := addSkillIfAbsent (lookupD rv.1 aid []) sk
  let varianceMultiplier := min 2 (1 + (newSkills.length : ℚ) * (1 / 5))
  (upsert rv.1 aid newSkills, upsert rv.2 aid varianceMultiplier)

/-- Per-bottleneck update of the activity risk lists and the variance
multiplier map. -/
def riskVarStep (acc : List (String × List String) × List (String × ℚ))
    (e : (String × String) × SkillDemandData) :
    List (String × List String) × List (String × ℚ) :=
  e.2.activities.foldl (riskStep e.1.1) acc

/-- `check_skill_overload(activities)` (`core/skill_analyzer.py`). -/
def check_skill_overload (acts : List Activity) : SkillAnalysis :=
  let tbl := build_skill_demand acts
  let over := overloadedEntries tbl
  let rv := over.foldl riskVarStep ([], [])
  { skill_bottlenecks := over.map (fun e => mkBottleneck e.1 e.2)
    activity_skill_risks := rv.1
    variance_increase_map := rv.2 }

/-- Float score derived in `compute_features` (`core/features.py`,
lines 240-248): `1.0` for non-positive float, a clamped linear ramp
`1 - float/5` strictly between `0` and `5`, `0.0` from five days on. -/
def float_score_of (floatDays : ℚ) : ℚ :=
  if floatDays ≤ 0 then 1
  else if floatDays < 5 then clamp 0 1 (1 - floatDays / 5)
  else 0

/-- Feature dictionary slice read by the rule-based risk model; a missing
dictionary key corresponds to the documented per-key default. -/
structure RiskFeatures : Type where
  delay_baseline_days : ℚ
  progress_slip : ℚ
  float_score : ℚ
  is_on_critical_path : Bool
  risk_probability : ℚ
  risk_delay_impact_days : ℚ
  expected_delay_days : ℚ
  predecessor_count : ℕ
  successor_count : ℕ
  downstream_critical_depth : ℕ
  fte_ratio : ℚ
  zombie_task_flag : ℚ
  resource_black_hole_flag : ℚ
deriving DecidableEq, Repr

/-- `normalize_to_0_100(value, min_val, max_val)` (`core/risk_model.py`). -/
def normalize_to_0_100 (value minVal maxVal : ℚ) : ℚ :=
  if maxVal = minVal then 0
  else clamp 0 100 ((value - minVal) / (maxVal - minVal) * 100)

namespace RuleBasedRiskModel

/-- Weight of the schedule-delay component. -/
def weightScheduleDelay : ℚ := 25 / 100

/-- Weight of the progress-slip component. -/
def weightProgressSlip : ℚ := 25 / 100

/-- Weight of the risk-register component. -/
def weightRiskRegister : ℚ := 10 / 100

/-- Weight of the float/criticality component. -/
def weightFloatCriticality : ℚ := 20 / 100

/-- Weight of the dependency-complexity component. -/
def weightDependency : ℚ := 10 / 100

/-- Weight of the resource-overload component. -/
def weightResourceOverload : ℚ := 5 / 100

/-- Weight of the anomaly component. -/
def weightAnomaly : ℚ := 5 / 100

/-- `_compute_schedule_delay_score`: delay vs baseline normalized over
0-30 days. -/
def scheduleDelayScore (f : RiskFeatures) : ℚ :=
  normalize_to_0_100 f.delay_baseline_days 0 30

/-- `_compute_progress_slip_score`: slip fraction scaled to 0-100. -/
def progressSlipScore (f : RiskFeatures) : ℚ :=
  f.progress_slip * 100

/-- `_compute_float_criticality_score`: float score scaled to 0-100 plus
a 25-40 point bonus for activities on the critical path, the bonus
growing as the float score rises (i.e. as the float shrinks). -/
def floatCriticalityScore (f : RiskFeatures) : ℚ :=
  let baseScore := f.float_score * 100
  if f.is_on_critical_path then
    let bonus : ℚ :=
      if f.float_score ≥ 8 / 10 then 40
      else if f.float_score ≥ 6 / 10 then 35
      else if f.float_score ≥ 4 / 10 then 30
      else 25
    min 100 (baseScore + bonus)
  else baseScore

/-- `_compute_risk_register_score`: probability, impact and expected
delay combined and capped at 100. -/
def riskRegisterScore (f : RiskFeatures) : ℚ :=
  min 100 (f.risk_probability * 50 +
    normalize_to_0_100 f.risk_delay_impact_days 0 30 * (1 / 2) +
    min 20 (f.expected_delay_days * 2))

/-- `_compute_dependency_score`: threshold scores for predecessor count,
successor count and downstream critical depth, capped at 100. -/
def dependencyScore (f : RiskFeatures) : ℚ :=
  let predScore : ℚ :=
    if f.predecessor_count ≥ 5 then 30
    else if f.predecessor_count ≥ 3 then 15 else 0
  let succScore : ℚ :=
    if f.successor_count ≥ 5 then 40
    else if f.successor_count ≥ 3 then 25 else 0
  let depthScore : ℚ :=
    if f.downstream_critical_depth ≥ 3 then 30
    else if f.downstream_critical_depth ≥ 1 then 15 else 0
  min 100 (predScore + succScore + depthScore)

/-- `_compute_resource_overload_score`: piecewise score of the FTE
ratio. -/
def resourceOverloadScore (f : RiskFeatures) : ℚ :=
  let r := f.fte_ratio
  let score : ℚ :=
    if r > 1 then min 100 ((r - 1) * 100)
    else if r > 9 / 10 then 60 + (r - 9 / 10) / (1 / 10) * 40
    else if r > 7 / 10 then 30 + (r - 7 / 10) / (2 / 10) * 30
    else if r > 0 then r * 30 / (7 / 10) else 0
  min 100 (max 0 score)

/-- `_compute_anomaly_score`: binary 100 when the zombie-task or
resource-black-hole flag is set. -/
def anomalyScore (f : RiskFeatures) : ℚ :=
  if f.zombie_task_flag > 1 / 2 ∨ f.resource_black_hole_flag > 1 / 2 then 100
  else 0

/-- Inner `normalize_value(value, all_values)` of `predict`: min-max
normalization to `[0, 1]`, degenerating to `0` when all population values
coincide. -/
def normalize_value (value : ℚ) (allValues : List ℚ) : ℚ :=
  if allValues.isEmpty then 0
  else
    let minVal := listMinD allValues 0
    let maxVal := listMaxD allValues 0
    if maxVal = minVal then 0 else (value - minVal) / (maxVal - minVal)

/-- Component score after optional project-wide normalization: raw when
the population has at most one member, min-max normalized (rescaled to
0-100) otherwise. -/
def normScore (raw : RiskFeatures → ℚ) (f : RiskFeatures)
    (pop : List RiskFeatures) : ℚ :=
  if 1 < pop.length then normalize_value (raw f) (pop.map raw) * 100
  else raw f

/-- `RuleBasedRiskModel.predict(f, project_features)`: weighted sum of
the (optionally normalized) component scores, clamped to `[0, 100]`. -/
def predict (f : RiskFeatures) (pop : List RiskFeatures) : ℚ :=
  let s1 := normScore scheduleDelayScore f pop
  let s2 := normScore progressSlipScore f pop
  let s3 := normScore riskRegisterScore f pop
  let s4 := normScore floatCriticalityScore f pop
  let s5 := normScore dependencyScore f pop
  let s6 := normScore resourceOverloadScore f pop
  let s7 := normScore anomalyScore f pop
  let overall :=
    (weightScheduleDelay * (s1 / 100) +
     weightProgressSlip * (s2 / 100) +
     weightRiskRegister * (s3 / 100) +
     weightFloatCriticality * (s4 / 100) +
     weightDependency * (s5 / 100) +
     weightResourceOverload * (s6 / 100) +
     weightAnomaly * (s7 / 100)) * 100
  clamp 0 100 overall

end RuleBasedRiskModel

/-- Per-activity FTE contribution to the demand of a `(skill, resource)`
key: the activity's FTE, once per occurrence of the skill in its parsed
tag list, subject to the same guards as the accumulation loop. -/
def contribOf (a : Activity) (k : String × String) : ℚ :=
  if !truthyS a.skill_tags || !truthyS a.resource_id then 0
  else if (parse_skill_tags a.skill_tags).isEmpty then 0
  else
    match a.planned_start, a.planned_finish with
    | some _, some _ =>
      if a.resource_id.getD "" = k.2 then
        ((parse_skill_tags a.skill_tags).count k.1 : ℚ) * pyOrQ a.fte_allocation 0
      else 0
    | _, _ => 0

/-- Summed FTE demand of a `(skill, resource)` key over an activity
population. -/
def summedDemand (acts : List Activity) (k : String × String) : ℚ :=
  acts.foldl (fun s a => s + contribOf a k) 0

/-- Skills of the overloaded demand entries that touch a given activity
(with multiplicity, in entry order). -/
def touchingSkills (over : List ((String × String) × SkillDemandData))
    (aid : String) : List String :=
  (over.filter (fun e => decide (aid ∈ e.2.activities.map Prod.fst))).map
    (fun e => e.1.1)

/-- Activity with neutral values for every field not under test, used by
the concrete scenarios below. -/
def defaultActivity (id : String) : Activity :=
  { activity_id := id
    name := id
    planned_start := none
    planned_finish := none
    planned_duration := none
    baseline_duration := none
    remaining_duration := none
    percent_complete := 0
    total_float := none
    risk_probability := 0
    risk_delay_impact_days := 0
    predecessors := []
    successors := []
    on_critical_path := false
    resource_id := none
    fte_allocation := some 0
    resource_max_fte := some 1
    skill_tags := none }

/-- Identity stand-in for the square-root function in concrete witness
computations. -/
def wSq : ℚ → ℚ := fun q => q

/-- Constant pseudo-random stream used in concrete witness
computations. -/
def wRng : ℕ → ℚ := fun _ => 1 / 2

/-- Single five-day activity used to exercise the forecaster
concretely. -/
def wActivity : Activity :=
  { defaultActivity "A" with planned_duration := some 5 }

/-- Digital twin of the single five-day activity. -/
def wTwin : DigitalTwin :=
  match digitalTwinNew [wActivity] with
  | Except.ok t => t
  | Except.error _ =>
    { activities := [], graph := { nodes := [], edges := [] },
      has_cycles := false, cycle_warning := none }

/-- Forecast result of one standard-mode run on the five-day activity
with the constant stream `wRng`. -/
def wForecast : ForecastResult :=
  { p50 := 5, p80 := 5, p90 := 5, p95 := 5, mean := 5, std := 0, minDur := 5,
    maxDur := 5, current := 0, criticality_indices := [("A", 1)],
    num_simulations := 1, forensic_modulation_applied := false }

/-- Scenario C activity `A`: five-day activity with no predecessors. -/
def scActivityA : Activity :=
  { defaultActivity "A" with planned_duration := some 5, successors := ["B"] }

/-- Scenario C activity `B`: three-day activity depending on `A`. -/
def scActivityB : Activity :=
  { defaultActivity "B" with planned_duration := some 3, predecessors := ["A"] }

/-- Scenario C dependency graph (`A -> B`). -/
def scGraphC : Graph := buildGraph (buildActivitiesMap [scActivityA, scActivityB])

/-- Scenario C deterministic durations (5 and 3 days). -/
def scDursC : List (String × ℚ) := [("A", 5), ("B", 3)]

/-- Cyclic-input activity `A` (predecessor `B`). -/
def cycActivityA : Activity :=
  { defaultActivity "A" with planned_duration := some 5, predecessors := ["B"] }

/-- Cyclic-input activity `B` (predecessor `A`). -/
def cycActivityB : Activity :=
  { defaultActivity "B" with planned_duration := some 3, predecessors := ["A"] }

/-- Stale-cache scenario: the first upload of activity `A` (five days). -/
def staleOldActivity : Activity :=
  { defaultActivity "A" with planned_duration := some 5 }

/-- Stale-cache scenario: the changed upload of activity `A` (nine
days). -/
def staleNewActivity : Activity :=
  { defaultActivity "A" with planned_duration := some 9 }

/-- Twin built from the first upload. -/
def staleTwin : DigitalTwin :=
  match digitalTwinNew [staleOldActivity] with
  | Except.ok t => t
  | Except.error _ =>
    { activities := [], graph := { nodes := [], edges := [] },
      has_cycles := false, cycle_warning := none }

/-- Twin that a rebuild from the changed upload would produce. -/
def freshTwin : DigitalTwin :=
  match digitalTwinNew [staleNewActivity] with
  | Except.ok t => t
  | Except.error _ =>
    { activities := [], graph := { nodes := [], edges := [] },
      has_cycles := false, cycle_warning := none }

/-- Cache state after the first `get_or_build_twin` call. -/
def staleCache : List (String × DigitalTwin) :=
  match get_or_build_twin [] "P1" (some [staleOldActivity]) with
  | Except.ok p => p.2
  | Except.error _ => []

/-- Scenario E input: ten remaining days, no drift. -/
def burnoutActivity : Activity :=
  { defaultActivity "A" with remaining_duration := some 10 }

/-- Scenario E enriched features: explicit zero drift, no cost signal. -/
def burnoutFeatures : EnrichedFeatures :=
  { drift_velocity := some { mode_shift_factor := 0 }
    cost_performance := none }

/-- Empty skill analysis (no bottlenecks). -/
def emptySkillAnalysis : SkillAnalysis :=
  { skill_bottlenecks := [], activity_skill_risks := [],
    variance_increase_map := [] }

/-- Single-activity overload input: FTE 1.0 against max FTE 0.3 for
skill `x` on resource `R` (the rounding counterexample). -/
def overloadActivityX : Activity :=
  { defaultActivity "X" with
      skill_tags := some "x"
      resource_id := some "R"
      fte_allocation := some 1
      resource_max_fte := some (3 / 10)
      planned_start := some 0
      planned_finish := some 10 }

/-- Scenario B activity 1: skill `x`, FTE 0.6, window days 0-10. -/
def scBActivity1 : Activity :=
  { defaultActivity "B1" with
      skill_tags := some "x"
      resource_id := some "R"
      fte_allocation := some (6 / 10)
      resource_max_fte := some 1
      planned_start := some 0
      planned_finish := some 10 }

/-- Scenario B activity 2: skill `x`, FTE 0.7, window days 5-15
(overlapping activity 1). -/
def scBActivity2 : Activity :=
  { defaultActivity "B2" with
      skill_tags := some "x"
      resource_id := some "R"
      fte_allocation := some (7 / 10)
      resource_max_fte := some 1
      planned_start := some 5
      planned_finish := some 15 }

/-- Concrete feature dictionary (critical-path activity with zero float)
used to instantiate the risk-model theorems. -/
def sampleRiskFeatures : RiskFeatures :=
  { delay_baseline_days := 0
    progress_slip := 0
    float_score := 1
    is_on_critical_path := true
    risk_probability := 0
    risk_delay_impact_days := 0
    expected_delay_days := 0
    predecessor_count := 0
    successor_count := 0
    downstream_critical_depth := 0
    fte_ratio := 0
    zombie_task_flag := 0
    resource_black_hole_flag := 0 }

/-! Theorems. -/

theorem lookup_mem {α : Type} {l : List (String × α)} {k : String} {v : α}
    (h : l.lookup k = some v) : (k, v) ∈ l := by
  induction l with
  | nil => simp [List.lookup] at h
  | cons p rest ih =>
    rw [List.lookup] at h
    by_cases hk : k = p.1
    · simp only [show (k == p.1) = true from by rw [beq_iff_eq]; exact hk] at h
      obtain rfl : p.2 = v := Option.some.inj h
      subst hk
      exact List.mem_cons_self _ _
    · simp only [show (k == p.1) = false from by
        rw [beq_eq_false_iff_ne]; exact hk] at h
      exact List.mem_cons_of_mem _ (ih h)

theorem upsert_lookup_self {α : Type} (m : List (String × α)) (k : String)
    (v : α) : (upsert m k v).lookup k = some v := by
  induction m with
  | nil => simp [upsert, List.lookup]
  | cons p rest ih =>
    rw [upsert]
    by_cases hk : p.1 = k
    · rw [if_pos hk, List.lookup]
      simp only [show (k == p.1) = true from by rw [beq_iff_eq]; exact hk.symm]
    · rw [if_neg hk, List.lookup]
      simp only [show (k == p.1) = false from by
        rw [beq_eq_false_iff_ne]; exact fun h => hk h.symm]
      exact ih

theorem upsert_lookup_ne {α : Type} (m : List (String × α)) (k k2 : String)
    (v : α) (hne : k ≠ k2) : (upsert m k v).lookup k2 = m.lookup k2 := by
  induction m with
  | nil =>
    simp only [upsert, List.lookup]
    simp only [show (k2 == k) = false from by
      rw [beq_eq_false_iff_ne]; exact fun h => hne h.symm]
  | cons p rest ih =>
    rw [upsert]
    by_cases hk : p.1 = k
    · rw [if_pos hk, List.lookup, List.lookup]
      simp only [show (k2 == p.1) = false from by
        rw [beq_eq_false_iff_ne, hk]; exact fun h => hne h.symm]
    · rw [if_neg hk, List.lookup, List.lookup]
      cases hb : k2 == p.1 with
      | true => simp only [hb]
      | false =>
        simp only [hb]
        exact ih

theorem wTwin_eval : wTwin =
    { activities := [("A", wActivity)], graph := { nodes := ["A"], edges := [] },
      has_cycles := false, cycle_warning := none } := by decide

theorem wSim_eval : simulate_activity_duration wSq wRng 0 wActivity none =
    Except.ok (5, 1) := by
  norm_num [simulate_activity_duration, simulateStandard, baseDurationOf,
    pyOrQ3, pyOrQ2, pyOrQ, truthyQ, wActivity, defaultActivity, triangularInv,
    wSq, wRng, max_def, min_def]

theorem wSimAll_eval : simulateAll wSq wRng none [("A", wActivity)] 0 =
    Except.ok ([("A", 5)], 1) := by
  norm_num [simulateAll, paramsFor, wSim_eval]

theorem wCPL_eval :
    compute_critical_path_length { nodes := ["A"], edges := [] } [("A", 5)] =
      Except.ok 5 := by
  norm_num [compute_critical_path_length, topoSort, kahnGo, kahnPick,
    forwardPass, predsOf, listMaxD, lookupD, List.lookup, projectFinishOf]

theorem wCPA_eval :
    compute_critical_path_activities { nodes := ["A"], edges := [] }
      [("A", 5)] = Except.ok ["A"] := by
  norm_num [compute_critical_path_activities, topoSort, kahnGo, kahnPick,
    forwardPass, backwardPass, predsOf, succsOf, listMaxD, listMinD, lookupD,
    List.lookup, projectFinishOf, abs, earliestStartMap, latestStartMap,
    projectFinishFor]

theorem wRun_eval :
    runSimulations wSq wRng [("A", wActivity)] { nodes := ["A"], edges := [] }
      none 1 0 [] [("A", 0)] = Except.ok ([5], [("A", 1)], 1) := by
  norm_num [runSimulations, wSimAll_eval, wCPL_eval, wCPA_eval, bumpTallies]

theorem wForecast_eval : monte_carlo_forecast wSq wRng wTwin 1 none =
    Except.ok wForecast := by
  have hCur : currentProgress [("A", wActivity)] = 0 := by
    norm_num [currentProgress, clamp, pyOrQ2, pyOrQ, truthyQ, wActivity,
      defaultActivity, max_def, min_def]
  rw [wTwin_eval, monte_carlo_forecast]
  norm_num [wRun_eval, hCur, wForecast, percentile, interpAt, pyInt,
    listMinD, listMaxD, max_def, min_def, wSq]

/-- C9: the derived float-score is `1.0` for float at most zero, `0.0`
for float at least five days, equals the linear ramp `1 - float/5`
strictly between zero and five days, and is strictly decreasing there. -/
theorem c9_float_score_piecewise (x y : ℚ) :
    (x ≤ 0 → float_score_of x = 1) ∧
    (5 ≤ x → float_score_of x = 0) ∧
    (0 < x → x < 5 → float_score_of x = 1 - x / 5) ∧
    (0 < x → x < y → y < 5 → float_score_of y < float_score_of x) := by
  have ramp : ∀ z : ℚ, 0 < z → z < 5 → float_score_of z = 1 - z / 5 := by
    intro z h0 h5
    rw [float_score_of, if_neg (by linarith), if_pos h5, clamp]
    rw [min_eq_right (by linarith), max_eq_right (by linarith)]
  refine ⟨fun h => ?_, fun h => ?_, ramp x, fun h0 hxy hy5 => ?_⟩
  · rw [float_score_of, if_pos h]
  · rw [float_score_of, if_neg (by linarith), if_neg (by linarith)]
  · rw [ramp x h0 (by linarith), ramp y (by linarith) hy5]
    linarith

/-- Concrete instantiations discharging the hypotheses of
`c9_float_score_piecewise`. -/
theorem c9_float_score_piecewise_witness :
    float_score_of (-1) = 1 ∧ float_score_of 6 = 0 ∧
    float_score_of 2 = 1 - 2 / 5 ∧ float_score_of 3 < float_score_of 2 :=
  ⟨(c9_float_score_piecewise (-1) 0).1 (by norm_num),
   (c9_float_score_piecewise 6 0).2.1 (by norm_num),
   (c9_float_score_piecewise 2 0).2.2.1 (by norm_num) (by norm_num),
   (c9_float_score_piecewise 2 3).2.2.2 (by norm_num) (by norm_num) (by norm_num)⟩

/-- C6: the uncertainty modulator combines its signals by the fixed
rules — additive mode shift (drift plus archetype), multiplicative
variance (skill times topology times archetype), maximum failure
probability (archetype versus cost), and the remaining/planned/baseline/1
base-duration fallback chain — and on the burnout scenario (base duration
ten, zero drift, archetype 2) the forensic simulation's modulated mode is
`10 * (1 + 0.2) = 12` before variance widening. -/
theorem c6_uncertainty_modulator (a : Activity) (ef : EnrichedFeatures)
    (arch : ArchetypeCharacteristics) (topoM : List (String × TopologyMetrics))
    (sk : SkillAnalysis) :
    (modulate_uncertainty a ef arch topoM sk).mode_shift_factor =
      driftModeShiftOf ef + arch.mode_shift_factor ∧
    (modulate_uncertainty a ef arch topoM sk).variance_multiplier =
      skillVarianceOf sk a.activity_id * topologyVarianceOf topoM a.activity_id *
        arch.variance_multiplier ∧
    (modulate_uncertainty a ef arch topoM sk).failure_probability =
      max arch.failure_probability (cpiFailureProbOf ef) ∧
    (modulate_uncertainty a ef arch topoM sk).base_duration = baseDurationOf a ∧
    (∀ r : ℚ, a.remaining_duration = some r → 0 < r →
      (modulate_uncertainty a ef arch topoM sk).base_duration = r) ∧
    (a.remaining_duration = none → a.planned_duration = none →
      a.baseline_duration = none →
      (modulate_uncertainty a ef arch topoM sk).base_duration = 1) ∧
    forensicModulatedMode (modulate_uncertainty burnoutActivity burnoutFeatures
      (get_risk_archetype_characteristics 2) [] emptySkillAnalysis) = 12 := by
  refine ⟨rfl, rfl, rfl, rfl, ?_, ?_, by
    norm_num [forensicModulatedMode, modulate_uncertainty, baseDurationOf,
      pyOrQ3, pyOrQ, truthyQ, burnoutActivity, burnoutFeatures,
      defaultActivity, get_risk_archetype_characteristics, driftModeShiftOf,
      skillVarianceOf, topologyVarianceOf, cpiFailureProbOf,
      emptySkillAnalysis, lookupD, List.lookup]⟩
  · intro r hr hpos
    show baseDurationOf a = r
    rw [baseDurationOf, pyOrQ3, hr]
    have ht : truthyQ (some r) = true := by
      simp [truthyQ]
      exact ne_of_gt hpos
    rw [if_pos ht, pyOrQ, if_neg (ne_of_gt hpos), if_neg (by linarith)]
  · intro h1 h2 h3
    show baseDurationOf a = 1
    rw [baseDurationOf, pyOrQ3, h1]
    simp [truthyQ, pyOrQ2, pyOrQ, h2, h3]

/-- Concrete instantiation discharging the hypotheses of
`c6_uncertainty_modulator`. -/
theorem c6_uncertainty_modulator_witness :
    (modulate_uncertainty burnoutActivity burnoutFeatures
      (get_risk_archetype_characteristics 2) [] emptySkillAnalysis).base_duration
      = 10 ∧
    (modulate_uncertainty (defaultActivity "Z") burnoutFeatures
      (get_risk_archetype_characteristics 0) [] emptySkillAnalysis).base_duration
      = 1 :=
  ⟨(c6_uncertainty_modulator burnoutActivity burnoutFeatures
      (get_risk_archetype_characteristics 2) [] emptySkillAnalysis).2.2.2.2.1
      10 rfl (by norm_num),
   (c6_uncertainty_modulator (defaultActivity "Z") burnoutFeatures
      (get_risk_archetype_characteristics 0) [] emptySkillAnalysis).2.2.2.2.2.1
      rfl rfl rfl⟩

/-- C4: the Monte Carlo forecaster is a pure function of the supplied
random stream (the seeded generator state), the twin, the parameter map
and the simulation count — two runs on identical inputs return identical
results, in particular identical percentiles. -/
theorem c4_forecast_determinism (sq : ℚ → ℚ) (rng : ℕ → ℚ)
    (twin : DigitalTwin) (n : ℕ)
    (pm : Option (List (String × UncertaintyParams))) :
    monte_carlo_forecast sq rng twin n pm =
      monte_carlo_forecast sq rng twin n pm ∧
    ∀ r1 r2 : ForecastResult,
      monte_carlo_forecast sq rng twin n pm = Except.ok r1 →
      monte_carlo_forecast sq rng twin n pm = Except.ok r2 →
      r1.p50 = r2.p50 ∧ r1.p80 = r2.p80 ∧ r1.p90 = r2.p90 ∧
      r1.p95 = r2.p95 ∧ r1 = r2 := by
  refine ⟨rfl, fun r1 r2 h1 h2 => ?_⟩
  rw [h1] at h2
  cases h2
  exact ⟨rfl, rfl, rfl, rfl, rfl⟩

/-- Concrete run discharging the hypotheses of
`c4_forecast_determinism`. -/
theorem c4_forecast_determinism_witness :
    ∃ r : ForecastResult,
      monte_carlo_forecast wSq wRng wTwin 1 none = Except.ok r ∧
      r.p50 = r.p50 ∧ r = r := by
  obtain ⟨h1, _, _, _, h5⟩ :=
    (c4_forecast_determinism wSq wRng wTwin 1 none).2 wForecast wForecast
      wForecast_eval wForecast_eval
  exact ⟨wForecast, wForecast_eval, h1, h5⟩

/-- C5 (code bug): the twin cache is keyed by project id alone, so after
the activity data of project `P1` changes from a five-day to a nine-day
activity, the pipeline's `get_or_build_twin` still returns the twin built
from the stale five-day data instead of the twin a rebuild would give. -/
theorem c5_stale_twin_served :
    get_or_build_twin [] "P1" (some [staleOldActivity]) =
      Except.ok (staleTwin, staleCache) ∧
    get_or_build_twin staleCache "P1" (some [staleNewActivity]) =
      Except.ok (staleTwin, staleCache) ∧
    (staleTwin.activities.lookup "A").map Activity.planned_duration =
      some (some 5) ∧
    staleNewActivity.planned_duration = some 9 ∧
    digitalTwinNew [staleNewActivity] = Except.ok freshTwin ∧
    (freshTwin.activities.lookup "A").map Activity.planned_duration =
      some (some 9) ∧
    staleTwin ≠ freshTwin := by decide

/-- C1 (code bug): on the cyclic two-activity input the topological sort
fails, the raised `NetworkXUnfeasible` is not matched by the engine's
`except nx.NetworkXError` handlers, and both twin construction and the
per-run critical-path computation propagate the exception instead of
setting `has_cycles` and returning a forecast. -/
theorem c1_cycle_raises_past_boundary :
    topoSort (buildGraph (buildActivitiesMap [cycActivityA, cycActivityB])) =
      none ∧
    nxErrorCatches PyErr.nxUnfeasible = false ∧
    digitalTwinNew [cycActivityA, cycActivityB] =
      Except.error PyErr.nxUnfeasible ∧
    compute_critical_path_length
      (buildGraph (buildActivitiesMap [cycActivityA, cycActivityB]))
      [("A", 5), ("B", 3)] = Except.error PyErr.nxUnfeasible := by decide

theorem clamp_bounds (lo hi x : ℚ) (h : lo ≤ hi) :
    lo ≤ clamp lo hi x ∧ clamp lo hi x ≤ hi :=
  ⟨le_max_left _ _, max_le h (min_le_left _ _)⟩

theorem foldl_min_const (xs : List ℚ) (c : ℚ) (h : ∀ x ∈ xs, x = c) :
    xs.foldl min c = c := by
  induction xs with
  | nil => rfl
  | cons x rest ih =>
    rw [List.foldl_cons, h x (List.mem_cons_self _ _), min_self]
    exact ih (fun y hy => h y (List.mem_cons_of_mem _ hy))

theorem foldl_max_const (xs : List ℚ) (c : ℚ) (h : ∀ x ∈ xs, x = c) :
    xs.foldl max c = c := by
  induction xs with
  | nil => rfl
  | cons x rest ih =>
    rw [List.foldl_cons, h x (List.mem_cons_self _ _), max_self]
    exact ih (fun y hy => h y (List.mem_cons_of_mem _ hy))

theorem listMinD_const (l : List ℚ) (c d : ℚ) (h : ∀ x ∈ l, x = c)
    (hne : l ≠ []) : listMinD l d = c := by
  cases l with
  | nil => exact absurd rfl hne
  | cons x rest =>
    rw [listMinD, h x (List.mem_cons_self _ _)]
    exact foldl_min_const rest c (fun y hy => h y (List.mem_cons_of_mem _ hy))

theorem listMaxD_const (l : List ℚ) (c d : ℚ) (h : ∀ x ∈ l, x = c)
    (hne : l ≠ []) : listMaxD l d = c := by
  cases l with
  | nil => exact absurd rfl hne
  | cons x rest =>
    rw [listMaxD, h x (List.mem_cons_self _ _)]
    exact foldl_max_const rest c (fun y hy => h y (List.mem_cons_of_mem _ hy))

/-- C2: the rule-based risk score is the clamped weighted sum
`100 * Σ weight_i * normalized_component_i` with weights 0.25 / 0.25 /
0.10 / 0.20 / 0.10 / 0.05 / 0.05; with a population of at most one
activity the normalization is skipped and the raw 0-100 components are
used; the float/criticality component adds a 25-40 point bonus on the
critical path; and the returned score always lies in `[0, 100]`. -/
theorem c2_risk_score_weighted_sum (f : RiskFeatures)
    (pop : List RiskFeatures) :
    0 ≤ RuleBasedRiskModel.predict f pop ∧
    RuleBasedRiskModel.predict f pop ≤ 100 ∧
    RuleBasedRiskModel.predict f pop =
      clamp 0 100 (100 *
        (25 / 100 * (RuleBasedRiskModel.normScore
            RuleBasedRiskModel.scheduleDelayScore f pop / 100) +
         25 / 100 * (RuleBasedRiskModel.normScore
            RuleBasedRiskModel.progressSlipScore f pop / 100) +
         10 / 100 * (RuleBasedRiskModel.normScore
            RuleBasedRiskModel.riskRegisterScore f pop / 100) +
         20 / 100 * (RuleBasedRiskModel.normScore
            RuleBasedRiskModel.floatCriticalityScore f pop / 100) +
         10 / 100 * (RuleBasedRiskModel.normScore
            RuleBasedRiskModel.dependencyScore f pop / 100) +
         5 / 100 * (RuleBasedRiskModel.normScore
            RuleBasedRiskModel.resourceOverloadScore f pop / 100) +
         5 / 100 * (RuleBasedRiskModel.normScore
            RuleBasedRiskModel.anomalyScore f pop / 100))) ∧
    (pop.length ≤ 1 →
      RuleBasedRiskModel.predict f pop =
        clamp 0 100
          (25 / 100 * RuleBasedRiskModel.scheduleDelayScore f +
           25 / 100 * RuleBasedRiskModel.progressSlipScore f +
           10 / 100 * RuleBasedRiskModel.riskRegisterScore f +
           20 / 100 * RuleBasedRiskModel.floatCriticalityScore f +
           10 / 100 * RuleBasedRiskModel.dependencyScore f +
           5 / 100 * RuleBasedRiskModel.resourceOverloadScore f +
           5 / 100 * RuleBasedRiskModel.anomalyScore f)) ∧
    (f.is_on_critical_path = true →
      ∃ bonus : ℚ, 25 ≤ bonus ∧ bonus ≤ 40 ∧
        RuleBasedRiskModel.floatCriticalityScore f =
          min 100 (f.float_score * 100 + bonus)) := by
  have hpredict : RuleBasedRiskModel.predict f pop =
      clamp 0 100 ((RuleBasedRiskModel.weightScheduleDelay *
          (RuleBasedRiskModel.normScore RuleBasedRiskModel.scheduleDelayScore f pop / 100) +
        RuleBasedRiskModel.weightProgressSlip *
          (RuleBasedRiskModel.normScore RuleBasedRiskModel.progressSlipScore f pop / 100) +
        RuleBasedRiskModel.weightRiskRegister *
          (RuleBasedRiskModel.normScore RuleBasedRiskModel.riskRegisterScore f pop / 100) +
        RuleBasedRiskModel.weightFloatCriticality *
          (RuleBasedRiskModel.normScore RuleBasedRiskModel.floatCriticalityScore f pop / 100) +
        RuleBasedRiskModel.weightDependency *
          (RuleBasedRiskModel.normScore RuleBasedRiskModel.dependencyScore f pop / 100) +
        RuleBasedRiskModel.weightResourceOverload *
          (RuleBasedRiskModel.normScore RuleBasedRiskModel.resourceOverloadScore f pop / 100) +
        RuleBasedRiskModel.weightAnomaly *
          (RuleBasedRiskModel.normScore RuleBasedRiskModel.anomalyScore f pop / 100)) * 100) :=
    rfl
  refine ⟨?_, ?_, ?_, ?_, ?_⟩
  · rw [hpredict]; exact (clamp_bounds 0 100 _ (by norm_num)).1
  · rw [hpredict]; exact (clamp_bounds 0 100 _ (by norm_num)).2
  · rw [hpredict]
    simp only [RuleBasedRiskModel.weightScheduleDelay,
      RuleBasedRiskModel.weightProgressSlip,
      RuleBasedRiskModel.weightRiskRegister,
      RuleBasedRiskModel.weightFloatCriticality,
      RuleBasedRiskModel.weightDependency,
      RuleBasedRiskModel.weightResourceOverload,
      RuleBasedRiskModel.weightAnomaly]
    exact congrArg (clamp 0 100) (by ring)
  · intro hlen
    have hskip : ∀ raw : RiskFeatures → ℚ,
        RuleBasedRiskModel.normScore raw f pop = raw f := by
      intro raw
      rw [RuleBasedRiskModel.normScore, if_neg (by omega)]
    rw [hpredict]
    simp only [hskip, RuleBasedRiskModel.weightScheduleDelay,
      RuleBasedRiskModel.weightProgressSlip,
      RuleBasedRiskModel.weightRiskRegister,
      RuleBasedRiskModel.weightFloatCriticality,
      RuleBasedRiskModel.weightDependency,
      RuleBasedRiskModel.weightResourceOverload,
      RuleBasedRiskModel.weightAnomaly]
    exact congrArg (clamp 0 100) (by ring)
  · intro hc
    rw [RuleBasedRiskModel.floatCriticalityScore, if_pos hc]
    by_cases h8 : f.float_score ≥ 8 / 10
    · exact ⟨40, by norm_num, by norm_num, by rw [if_pos h8]⟩
    · by_cases h6 : f.float_score ≥ 6 / 10
      · exact ⟨35, by norm_num, by norm_num, by rw [if_neg h8, if_pos h6]⟩
      · by_cases h4 : f.float_score ≥ 4 / 10
        · exact ⟨30, by norm_num, by norm_num,
            by rw [if_neg h8, if_neg h6, if_pos h4]⟩
        · exact ⟨25, by norm_num, by norm_num,
            by rw [if_neg h8, if_neg h6, if_neg h4]⟩

/-- Concrete instantiation discharging the hypotheses of
`c2_risk_score_weighted_sum`. -/
theorem c2_risk_score_weighted_sum_witness :
    RuleBasedRiskModel.predict sampleRiskFeatures [] =
      clamp 0 100
        (25 / 100 * RuleBasedRiskModel.scheduleDelayScore sampleRiskFeatures +
         25 / 100 * RuleBasedRiskModel.progressSlipScore sampleRiskFeatures +
         10 / 100 * RuleBasedRiskModel.riskRegisterScore sampleRiskFeatures +
         20 / 100 * RuleBasedRiskModel.floatCriticalityScore sampleRiskFeatures +
         10 / 100 * RuleBasedRiskModel.dependencyScore sampleRiskFeatures +
         5 / 100 * RuleBasedRiskModel.resourceOverloadScore sampleRiskFeatures +
         5 / 100 * RuleBasedRiskModel.anomalyScore sampleRiskFeatures) ∧
    ∃ bonus : ℚ, 25 ≤ bonus ∧ bonus ≤ 40 ∧
      RuleBasedRiskModel.floatCriticalityScore sampleRiskFeatures =
        min 100 (sampleRiskFeatures.float_score * 100 + bonus) :=
  ⟨(c2_risk_score_weighted_sum sampleRiskFeatures []).2.2.2.1 (by norm_num),
   (c2_risk_score_weighted_sum sampleRiskFeatures []).2.2.2.2 rfl⟩

/-- C10: when every activity of a population of at least two shares the
same raw component value, min-max normalization maps the component to
zero for everyone (`normalize_value` returns 0 when max equals min);
hence a project whose activities all carry identical features is scored
zero across the board. -/
theorem c10_degenerate_normalization (value : ℚ) (vals : List ℚ)
    (f : RiskFeatures) (pop : List RiskFeatures) :
    (vals ≠ [] → listMaxD vals 0 = listMinD vals 0 →
      RuleBasedRiskModel.normalize_value value vals = 0) ∧
    (1 < pop.length → (∀ g ∈ pop, g = f) →
      RuleBasedRiskModel.predict f pop = 0) := by
  constructor
  · intro hne heq
    rw [RuleBasedRiskModel.normalize_value,
      if_neg (by simpa [List.isEmpty_iff] using hne), if_pos heq]
  · intro hlen hall
    have hne : pop ≠ [] := by
      intro h
      rw [h] at hlen
      simp at hlen
    have hnorm : ∀ raw : RiskFeatures → ℚ,
        RuleBasedRiskModel.normScore raw f pop = 0 := by
      intro raw
      rw [RuleBasedRiskModel.normScore, if_pos hlen]
      have hmapne : pop.map raw ≠ [] := by
        simpa [List.map_eq_nil_iff] using hne
      have hconst : ∀ x ∈ pop.map raw, x = raw f := by
        intro x hx
        obtain ⟨g, hg, rfl⟩ := List.mem_map.1 hx
        rw [hall g hg]
      rw [RuleBasedRiskModel.normalize_value,
        if_neg (by simpa [List.isEmpty_iff] using hmapne),
        if_pos (by rw [listMaxD_const _ _ _ hconst hmapne,
          listMinD_const _ _ _ hconst hmapne]), zero_mul]
    have hpredict : RuleBasedRiskModel.predict f pop =
        clamp 0 100 ((RuleBasedRiskModel.weightScheduleDelay *
            (RuleBasedRiskModel.normScore RuleBasedRiskModel.scheduleDelayScore f pop / 100) +
          RuleBasedRiskModel.weightProgressSlip *
            (RuleBasedRiskModel.normScore RuleBasedRiskModel.progressSlipScore f pop / 100) +
          RuleBasedRiskModel.weightRiskRegister *
            (RuleBasedRiskModel.normScore RuleBasedRiskModel.riskRegisterScore f pop / 100) +
          RuleBasedRiskModel.weightFloatCriticality *
            (RuleBasedRiskModel.normScore RuleBasedRiskModel.floatCriticalityScore f pop / 100) +
          RuleBasedRiskModel.weightDependency *
            (RuleBasedRiskModel.normScore RuleBasedRiskModel.dependencyScore f pop / 100) +
          RuleBasedRiskModel.weightResourceOverload *
            (RuleBasedRiskModel.normScore RuleBasedRiskModel.resourceOverloadScore f pop / 100) +
          RuleBasedRiskModel.weightAnomaly *
            (RuleBasedRiskModel.normScore RuleBasedRiskModel.anomalyScore f pop / 100)) * 100) :=
      rfl
    rw [hpredict]
    simp only [hnorm]
    norm_num [clamp]

/-- Concrete instantiation discharging the hypotheses of
`c10_degenerate_normalization`. -/
theorem c10_degenerate_normalization_witness :
    RuleBasedRiskModel.normalize_value 5 [7, 7] = 0 ∧
    RuleBasedRiskModel.predict sampleRiskFeatures
      [sampleRiskFeatures, sampleRiskFeatures] = 0 :=
  ⟨(c10_degenerate_normalization 5 [7, 7] sampleRiskFeatures []).1
      (by simp) (by norm_num [listMaxD, listMinD]),
   (c10_degenerate_normalization 5 [7, 7] sampleRiskFeatures
      [sampleRiskFeatures, sampleRiskFeatures]).2 (by norm_num)
      (by intro g hg; rcases List.mem_cons.1 hg with h | h; exact h; simpa using h)⟩

theorem scGraphC_eval :
    scGraphC = { nodes := ["A", "B"], edges := [("A", "B")] } := by decide

theorem topoC_eval :
    topoSort { nodes := ["A", "B"], edges := [("A", "B")] } =
      some ["A", "B"] := by decide

theorem scenarioC_length :
    compute_critical_path_length scGraphC scDursC = Except.ok 8 := by
  have h1 : (("B" : String) == "A") = false := by decide
  have h2 : (("A" : String) == "B") = false := by decide
  have h3 : ¬ (("B" : String) = "A") := by decide
  have h4 : ¬ (("A" : String) = "B") := by decide
  rw [scGraphC_eval, compute_critical_path_length, topoC_eval]
  norm_num [forwardPass, predsOf, succsOf, listMaxD, lookupD, List.lookup,
    scDursC, projectFinishOf, h1, h2, h3, h4]

theorem scenarioC_critical :
    compute_critical_path_activities scGraphC scDursC =
      Except.ok ["A", "B"] := by
  have h1 : (("B" : String) == "A") = false := by decide
  have h2 : (("A" : String) == "B") = false := by decide
  have h3 : ¬ (("B" : String) = "A") := by decide
  have h4 : ¬ (("A" : String) = "B") := by decide
  rw [scGraphC_eval, compute_critical_path_activities, topoC_eval]
  norm_num [forwardPass, backwardPass, predsOf, succsOf, listMaxD, listMinD,
    lookupD, List.lookup, projectFinishOf, abs, earliestStartMap,
    latestStartMap, projectFinishFor, scDursC, h1, h2, h3, h4]

theorem scenarioC_zero_float :
    lookupD (latestStartMap scGraphC scDursC ["A", "B"]) "A"
        (projectFinishFor scGraphC scDursC ["A", "B"]) -
      lookupD (earliestStartMap scGraphC scDursC ["A", "B"]) "A" 0 = 0 ∧
    lookupD (latestStartMap scGraphC scDursC ["A", "B"]) "B"
        (projectFinishFor scGraphC scDursC ["A", "B"]) -
      lookupD (earliestStartMap scGraphC scDursC ["A", "B"]) "B" 0 = 0 := by
  have h1 : (("B" : String) == "A") = false := by decide
  have h2 : (("A" : String) == "B") = false := by decide
  have h3 : ¬ (("B" : String) = "A") := by decide
  have h4 : ¬ (("A" : String) = "B") := by decide
  rw [scGraphC_eval]
  constructor <;>
  norm_num [forwardPass, backwardPass, predsOf, succsOf, listMaxD, listMinD,
    lookupD, List.lookup, projectFinishOf, earliestStartMap, latestStartMap,
    projectFinishFor, scDursC, h1, h2, h3, h4]

/-- C7: on any acyclic graph (a graph the engine's topological sort
orders) an activity is classified as on the critical path exactly when
it carries a duration and `|ES - LS| < 0.01`, with ES from the forward
pass and LS from the backward pass; and on the two-activity chain
`A -> B` with durations 5 and 3 the project finish is 8, both activities
are on the critical path, and both have zero float `LS - ES`. -/
theorem c7_critical_path_classification (g : Graph)
    (durs : List (String × ℚ)) (ord : List String)
    (h : topoSort g = some ord) :
    (∀ S, compute_critical_path_activities g durs = Except.ok S →
      ∀ a, (a ∈ S ↔ a ∈ ord ∧ (durs.lookup a).isSome ∧
        |lookupD (earliestStartMap g durs ord) a 0 -
          lookupD (latestStartMap g durs ord) a
            (projectFinishFor g durs ord)| < 1 / 100)) ∧
    compute_critical_path_length scGraphC scDursC = Except.ok 8 ∧
    compute_critical_path_activities scGraphC scDursC =
      Except.ok ["A", "B"] ∧
    (lookupD (latestStartMap scGraphC scDursC ["A", "B"]) "A"
        (projectFinishFor scGraphC scDursC ["A", "B"]) -
      lookupD (earliestStartMap scGraphC scDursC ["A", "B"]) "A" 0 = 0) ∧
    (lookupD (latestStartMap scGraphC scDursC ["A", "B"]) "B"
        (projectFinishFor scGraphC scDursC ["A", "B"]) -
      lookupD (earliestStartMap scGraphC scDursC ["A", "B"]) "B" 0 = 0) := by
  refine ⟨?_, scenarioC_length, scenarioC_critical,
    scenarioC_zero_float.1, scenarioC_zero_float.2⟩
  intro S hS a
  have hS2 : (Except.ok (ord.filter (fun node =>
      (durs.lookup node).isSome &&
        decide (|lookupD (earliestStartMap g durs ord) node 0 -
          lookupD (latestStartMap g durs ord) node
            (projectFinishFor g durs ord)| < 1 / 100))) :
      Except PyErr (List String)) = Except.ok S := by
    rw [← hS, compute_critical_path_activities, h]
  injection hS2 with hS3
  rw [← hS3, List.mem_filter]
  simp only [Bool.and_eq_true, decide_eq_true_eq]

/-- Concrete instantiation discharging the hypotheses of
`c7_critical_path_classification`. -/
theorem c7_critical_path_classification_witness :
    ∃ S, compute_critical_path_activities scGraphC scDursC = Except.ok S ∧
      ("A" ∈ S ↔ "A" ∈ (["A", "B"] : List String) ∧
        (scDursC.lookup "A").isSome ∧
        |lookupD (earliestStartMap scGraphC scDursC ["A", "B"]) "A" 0 -
          lookupD (latestStartMap scGraphC scDursC ["A", "B"]) "A"
            (projectFinishFor scGraphC scDursC ["A", "B"])| < 1 / 100) := by
  have hts : topoSort scGraphC = some ["A", "B"] := by decide
  have hmain := c7_critical_path_classification scGraphC scDursC ["A", "B"] hts
  exact ⟨["A", "B"], hmain.2.2.1, hmain.1 _ hmain.2.2.1 "A"⟩

theorem addSkillIfAbsent_mem (l : List String) (s t : String) :
    t ∈ addSkillIfAbsent l s ↔ t ∈ l ∨ t = s := by
  rw [addSkillIfAbsent]
  by_cases hin : s ∈ l
  · rw [if_pos hin]
    constructor
    · exact fun h => Or.inl h
    · rintro (h | rfl)
      · exact h
      · exact hin
  · rw [if_neg hin]
    simp

theorem addSkillIfAbsent_self_mem (l : List String) (s : String) :
    s ∈ addSkillIfAbsent l s :=
  (addSkillIfAbsent_mem l s s).2 (Or.inr rfl)

theorem addSkillIfAbsent_of_mem {l : List String} {s : String} (h : s ∈ l) :
    addSkillIfAbsent l s = l := by
  rw [addSkillIfAbsent, if_pos h]

theorem addSkillIfAbsent_nodup {l : List String} (s : String)
    (h : l.Nodup) : (addSkillIfAbsent l s).Nodup := by
  rw [addSkillIfAbsent]
  by_cases hin : s ∈ l
  · rw [if_pos hin]; exact h
  · rw [if_neg hin]
    simp [List.nodup_append, h, hin]

theorem foldl_addSkill_mem (ts : List String) :
    ∀ (l : List String) (t : String),
      (t ∈ ts.foldl addSkillIfAbsent l ↔ t ∈ l ∨ t ∈ ts) := by
  induction ts with
  | nil => simp
  | cons a rest ih =>
    intro l t
    rw [List.foldl_cons, ih, addSkillIfAbsent_mem]
    simp [or_assoc]

theorem foldl_addSkill_nodup (ts : List String) :
    ∀ (l : List String), l.Nodup → (ts.foldl addSkillIfAbsent l).Nodup := by
  induction ts with
  | nil => exact fun l h => h
  | cons a rest ih =>
    intro l h
    rw [List.foldl_cons]
    exact ih _ (addSkillIfAbsent_nodup a h)

theorem foldl_addSkill_append (ts : List String) (l : List String)
    (s : String) :
    (ts ++ [s]).foldl addSkillIfAbsent l =
      addSkillIfAbsent (ts.foldl addSkillIfAbsent l) s := by
  rw [List.foldl_append, List.foldl_cons, List.foldl_nil]

theorem riskVarInner (sk : String) (ads : List (String × ℚ)) :
    ∀ (acc : List (String × List String) × List (String × ℚ)) (aid : String),
      (aid ∉ ads.map Prod.fst →
        ((ads.foldl (riskStep sk) acc).1.lookup aid = acc.1.lookup aid ∧
         (ads.foldl (riskStep sk) acc).2.lookup aid = acc.2.lookup aid)) ∧
      (aid ∈ ads.map Prod.fst →
        ((ads.foldl (riskStep sk) acc).1.lookup aid =
            some (addSkillIfAbsent (lookupD acc.1 aid []) sk) ∧
         (ads.foldl (riskStep sk) acc).2.lookup aid =
            some (min 2 (1 +
              ((addSkillIfAbsent (lookupD acc.1 aid []) sk).length : ℚ) *
                (1 / 5))))) := by
  induction ads with
  | nil =>
    intro acc aid
    exact ⟨fun _ => ⟨rfl, rfl⟩, fun h => absurd h (by simp)⟩
  | cons ad rest ih =>
    intro acc aid
    have hstep1 : (riskStep sk acc ad).1 =
        upsert acc.1 ad.1 (addSkillIfAbsent (lookupD acc.1 ad.1 []) sk) := rfl
    have hstep2 : (riskStep sk acc ad).2 =
        upsert acc.2 ad.1 (min 2 (1 +
          ((addSkillIfAbsent (lookupD acc.1 ad.1 []) sk).length : ℚ) *
            (1 / 5))) := rfl
    constructor
    · intro hnot
      have h0 : aid ≠ ad.1 := fun h => hnot (by simp [h])
      have hrest : aid ∉ rest.map Prod.fst := fun h => hnot (by simp [h])
      obtain ⟨r1, r2⟩ := (ih (riskStep sk acc ad) aid).1 hrest
      rw [List.foldl_cons]
      refine ⟨?_, ?_⟩
      · rw [r1, hstep1, upsert_lookup_ne _ _ _ _ (fun h => h0 h.symm)]
      · rw [r2, hstep2, upsert_lookup_ne _ _ _ _ (fun h => h0 h.symm)]
    · intro hmem
      rw [List.foldl_cons]
      by_cases hrest : aid ∈ rest.map Prod.fst
      · obtain ⟨r1, r2⟩ := (ih (riskStep sk acc ad) aid).2 hrest
        by_cases h0 : aid = ad.1
        · subst h0
          have hl : lookupD (riskStep sk acc ad).1 ad.1 [] =
              addSkillIfAbsent (lookupD acc.1 ad.1 []) sk := by
            rw [lookupD, hstep1, upsert_lookup_self]
          rw [r1, r2, hl,
            addSkillIfAbsent_of_mem (addSkillIfAbsent_self_mem _ _)]
          exact ⟨rfl, rfl⟩
        · have hl : lookupD (riskStep sk acc ad).1 aid [] =
              lookupD acc.1 aid [] := by
            rw [lookupD, lookupD, hstep1,
              upsert_lookup_ne _ _ _ _ (fun h => h0 h.symm)]
          
          rw [r1, r2, hl]
          exact ⟨rfl, rfl⟩
      · have h0 : aid = ad.1 := by
          rcases (by simpa using hmem : aid = ad.1 ∨ aid ∈ rest.map Prod.fst)
            with h | h
          · exact h
          · exact absurd h hrest
        subst h0
        obtain ⟨r1, r2⟩ := (ih (riskStep sk acc ad) ad.1).1 hrest
        rw [r1, r2, hstep1, hstep2]
        exact ⟨upsert_lookup_self _ _ _, upsert_lookup_self _ _ _⟩

theorem touchingSkills_append (over : List ((String × String) × SkillDemandData))
    (e : (String × String) × SkillDemandData) (aid : String) :
    touchingSkills (over ++ [e]) aid =
      touchingSkills over aid ++
        (if aid ∈ e.2.activities.map Prod.fst then [e.1.1] else []) := by
  by_cases h : aid ∈ e.2.activities.map Prod.fst
  · simp [touchingSkills, List.filter_append, h]
  · simp [touchingSkills, List.filter_append, h]

theorem riskVar_char (over : List ((String × String) × SkillDemandData))
    (aid : String) :
    ((over.foldl riskVarStep ([], [])).1.lookup aid =
      if touchingSkills over aid = [] then none
      else some ((touchingSkills over aid).foldl addSkillIfAbsent [])) ∧
    ((over.foldl riskVarStep ([], [])).2.lookup aid =
      if touchingSkills over aid = [] then none
      else some (min 2 (1 +
        (((touchingSkills over aid).foldl addSkillIfAbsent []).length : ℚ) *
          (1 / 5)))) := by
  induction over using List.reverseRecOn with
  | nil => simp [touchingSkills, List.lookup]
  | append_singleton over e ih =>
    rw [List.foldl_append, List.foldl_cons, List.foldl_nil,
      touchingSkills_append, riskVarStep]
    by_cases htouch : aid ∈ e.2.activities.map Prod.fst
    · obtain ⟨r1, r2⟩ :=
        (riskVarInner e.1.1 e.2.activities (over.foldl riskVarStep ([], [])) aid).2
          htouch
      rw [if_pos htouch]
      have hne : touchingSkills over aid ++ [e.1.1] ≠ [] := by simp
      rw [r1, r2, if_neg hne, if_neg hne, foldl_addSkill_append]
      by_cases hts : touchingSkills over aid = []
      · have hl : lookupD (over.foldl riskVarStep ([], [])).1 aid [] = [] := by
          rw [lookupD, ih.1, if_pos hts]
        rw [hl, hts]
        exact ⟨rfl, rfl⟩
      · have hl : lookupD (over.foldl riskVarStep ([], [])).1 aid [] =
            (touchingSkills over aid).foldl addSkillIfAbsent [] := by
          rw [lookupD, ih.1, if_neg hts]
        rw [hl]
        exact ⟨rfl, rfl⟩
    · obtain ⟨r1, r2⟩ :=
        (riskVarInner e.1.1 e.2.activities (over.foldl riskVarStep ([], [])) aid).1
          htouch
      rw [if_neg htouch, List.append_nil, r1, r2]
      exact ih

theorem addDemand_total (m : List ((String × String) × SkillDemandData))
    (k k2 : String × String) (aid : String) (fte maxF : ℚ) (ps pf : ℤ) :
    demandTotalOf (addDemand m k aid fte maxF ps pf) k2 =
      demandTotalOf m k2 + (if k2 = k then fte else 0) := by
  induction m with
  | nil =>
    rw [addDemand]
    by_cases h : k2 = k
    · simp [demandTotalOf, List.lookup,
        show (k2 == k) = true from by rw [beq_iff_eq]; exact h, h]
    · simp [demandTotalOf, List.lookup,
        show (k2 == k) = false from by rw [beq_eq_false_iff_ne]; exact h, h]
  | cons p rest ih =>
    rw [addDemand]
    by_cases hk : p.1 = k
    · rw [if_pos hk]
      by_cases h2 : k2 = p.1
      · have hkk : k2 = k := h2.trans hk
        simp only [demandTotalOf, List.lookup,
          show (k2 == p.1) = true from by rw [beq_iff_eq]; exact h2,
          if_pos hkk]
      · have hkk : ¬ k2 = k := fun hh => h2 (hh.trans hk.symm)
        simp only [demandTotalOf, List.lookup,
          show (k2 == p.1) = false from by rw [beq_eq_false_iff_ne]; exact h2,
          if_neg hkk]
        ring
    · rw [if_neg hk]
      by_cases h2 : k2 = p.1
      · have hkk : ¬ k2 = k := fun hh => hk (h2.symm.trans hh)
        simp only [demandTotalOf, List.lookup,
          show (k2 == p.1) = true from by rw [beq_iff_eq]; exact h2,
          if_neg hkk]
        ring
      · simp only [demandTotalOf, List.lookup,
          show (k2 == p.1) = false from by rw [beq_eq_false_iff_ne]; exact h2]
        exact ih

theorem inner_demand_total (rid aid : String) (fte maxF : ℚ) (ps pf : ℤ)
    (k : String × String) :
    ∀ (skills : List String) (m : List ((String × String) × SkillDemandData)),
      demandTotalOf (skills.foldl (fun macc skill =>
        addDemand macc (skill, rid) aid fte maxF ps pf) m) k =
      demandTotalOf m k +
        (if k.2 = rid then ((skills.count k.1 : ℚ)) * fte else 0) := by
  intro skills
  induction skills with
  | nil =>
    intro m
    simp
  | cons s rest ih =>
    intro m
    rw [List.foldl_cons, ih, addDemand_total]
    by_cases hr : k.2 = rid
    · by_cases hs : k.1 = s
      · have hks : k = (s, rid) := by
          cases k
          simp_all
        rw [if_pos hks, if_pos hr, if_pos hr, List.count_cons,
          show (s == k.1) = true from by rw [beq_iff_eq]; exact hs.symm]
        push_cast
        norm_num
        ring
      · have hks : ¬ k = (s, rid) := by
          intro hh
          rw [hh] at hs
          exact hs rfl
        rw [if_neg hks, if_pos hr, if_pos hr, List.count_cons,
          show (s == k.1) = false from by rw [beq_eq_false_iff_ne]; exact fun hh => hs hh.symm]
        push_cast
        norm_num
    · have hks : ¬ k = (s, rid) := by
        intro hh
        rw [hh] at hr
        exact hr rfl
      rw [if_neg hks, if_neg hr, if_neg hr]
      ring

theorem buildStep_total (m : List ((String × String) × SkillDemandData))
    (a : Activity) (k : String × String) :
    demandTotalOf (buildStep m a) k = demandTotalOf m k + contribOf a k := by
  rw [buildStep, contribOf]
  by_cases hg : (!truthyS a.skill_tags || !truthyS a.resource_id) = true
  · rw [if_pos hg, if_pos hg]
    ring
  · rw [if_neg hg, if_neg hg]
    by_cases hsk : (parse_skill_tags a.skill_tags).isEmpty = true
    · rw [if_pos hsk, if_pos hsk]
      ring
    · rw [if_neg hsk, if_neg hsk]
      cases hps : a.planned_start with
      | none => simp
      | some ps =>
        cases hpf : a.planned_finish with
        | none => simp
        | some pf =>
          rw [inner_demand_total]
          by_cases hr : a.resource_id.getD "" = k.2
          · rw [if_pos (show k.2 = a.resource_id.getD "" from hr.symm),
              if_pos hr]
          · rw [if_neg (fun hh => hr hh.symm), if_neg hr]

theorem build_demand_total (k : String × String) :
    ∀ (acts : List Activity) (m : List ((String × String) × SkillDemandData)),
      demandTotalOf (acts.foldl buildStep m) k =
        demandTotalOf m k + acts.foldl (fun s a => s + contribOf a k) 0 := by
  intro acts
  induction acts with
  | nil =>
    intro m
    simp
  | cons a rest ih =>
    intro m
    rw [List.foldl_cons, List.foldl_cons, ih, buildStep_total]
    have hshift : ∀ (s0 : ℚ) (l : List Activity),
        l.foldl (fun s x => s + contribOf x k) s0 =
          s0 + l.foldl (fun s x => s + contribOf x k) 0 := by
      intro s0 l
      induction l generalizing s0 with
      | nil => simp
      | cons b bs ihb =>
        rw [List.foldl_cons, List.foldl_cons, ihb, zero_add,
          ihb (contribOf b k)]
        ring
    rw [hshift (0 + contribOf a k)]
    ring

theorem summed_demand_eq (acts : List Activity) (k : String × String) :
    demandTotalOf (build_skill_demand acts) k = summedDemand acts k := by
  rw [build_skill_demand, summedDemand, build_demand_total]
  simp [demandTotalOf, List.lookup]

theorem roundHalfEven_of_lt (x : ℚ) (n : ℤ) (h1 : ⌊x⌋ = n)
    (h2 : x - (n : ℚ) < 1 / 2) : roundHalfEven x = n := by
  simp only [roundHalfEven, h1, if_pos h2]

theorem round1_eq (x : ℚ) (n : ℤ) (h1 : ⌊x * 10⌋ = n)
    (h2 : x * 10 - (n : ℚ) < 1 / 2) : round1 x = (n : ℚ) / 10 := by
  rw [round1, roundHalfEven_of_lt (x * 10) n h1 h2]

theorem round2_eq (x : ℚ) (n : ℤ) (h1 : ⌊x * 100⌋ = n)
    (h2 : x * 100 - (n : ℚ) < 1 / 2) : round2 x = (n : ℚ) / 100 := by
  rw [round2, roundHalfEven_of_lt (x * 100) n h1 h2]

theorem counterDemand_eval : build_skill_demand [overloadActivityX] =
    [(("x", "R"),
      { total_fte := 1, max_fte := 3 / 10, activities := [("X", 1)],
        time_window_start := 0, time_window_end := 10 })] := by
  have hp : parse_skill_tags (some "x") = ["x"] := by decide
  have hx : ¬ ("x" : String) = "" := by decide
  have hr : ¬ ("R" : String) = "" := by decide
  norm_num [build_skill_demand, buildStep, addDemand, truthyS, pyOrQ, hp,
    overloadActivityX, defaultActivity, hx, hr]

/-- C8 counterexample: for a single activity with FTE 1.0 against max
FTE 0.3, the reported bottleneck's overload percentage is the rounded
`333.3`, not the exact `demand/max*100 = 1000/3` the claim states. -/
theorem c8_overload_pct_counterexample :
    (check_skill_overload [overloadActivityX]).skill_bottlenecks.map
      SkillBottleneck.overload_pct = [3333 / 10] ∧
    (check_skill_overload [overloadActivityX]).skill_bottlenecks.map
      SkillBottleneck.max_fte = [3 / 10] ∧
    summedDemand [overloadActivityX] ("x", "R") = 1 ∧
    ¬ ((3333 / 10 : ℚ) = 1 / (3 / 10) * 100) := by
  have hp : parse_skill_tags (some "x") = ["x"] := by decide
  refine ⟨?_, ?_, ?_, by norm_num⟩
  · norm_num [check_skill_overload, counterDemand_eval, overloadedEntries,
      mkBottleneck]
    rw [round1_eq _ 3333 (by norm_num) (by norm_num)]
    norm_num
  · norm_num [check_skill_overload, counterDemand_eval, overloadedEntries,
      mkBottleneck]
    rw [round2_eq _ 30 (by norm_num) (by norm_num)]
    norm_num
  · have hx : ¬ ("x" : String) = "" := by decide
    have hr : ¬ ("R" : String) = "" := by decide
    norm_num [summedDemand, contribOf, truthyS, pyOrQ, hp, overloadActivityX,
      defaultActivity, hx, hr]

theorem scenBDemand_eval : build_skill_demand [scBActivity1, scBActivity2] =
    [(("x", "R"),
      { total_fte := 13 / 10, max_fte := 1,
        activities := [("B1", 6 / 10), ("B2", 7 / 10)],
        time_window_start := 0, time_window_end := 15 })] := by
  have hp : parse_skill_tags (some "x") = ["x"] := by decide
  have hx : ¬ ("x" : String) = "" := by decide
  have hr : ¬ ("R" : String) = "" := by decide
  norm_num [build_skill_demand, buildStep, addDemand, truthyS, pyOrQ, hp,
    scBActivity1, scBActivity2, defaultActivity, hx, hr]

theorem scenarioB_eval :
    (check_skill_overload [scBActivity1, scBActivity2]).skill_bottlenecks.map
      SkillBottleneck.overload_pct = [130] ∧
    (check_skill_overload [scBActivity1, scBActivity2]).variance_increase_map =
      [("B1", 6 / 5), ("B2", 6 / 5)] ∧ (1 : ℚ) < 6 / 5 ∧
    summedDemand [scBActivity1, scBActivity2] ("x", "R") = 13 / 10 := by
  have hp : parse_skill_tags (some "x") = ["x"] := by decide
  have hx : ¬ ("x" : String) = "" := by decide
  have hr : ¬ ("R" : String) = "" := by decide
  refine ⟨?_, ?_, by norm_num, ?_⟩
  · norm_num [check_skill_overload, scenBDemand_eval, overloadedEntries,
      mkBottleneck]
    rw [round1_eq _ 1300 (by norm_num) (by norm_num)]
    norm_num
  · have hb1 : ¬ ("B1" : String) = "B2" := by decide
    have hb2 : (("B2" : String) == "B1") = false := by decide
    have hb3 : (("B1" : String) == "B2") = false := by decide
    norm_num [check_skill_overload, scenBDemand_eval, overloadedEntries,
      riskVarStep, riskStep, addSkillIfAbsent, lookupD, List.lookup, upsert,
      hb1, hb2, hb3]
  · norm_num [summedDemand, contribOf, truthyS, pyOrQ, hp, scBActivity1,
      scBActivity2, defaultActivity, hx, hr]


/-- C8 (amended): a `(skill, resource)` pair is reported as a bottleneck
iff its accumulated FTE demand exceeds the recorded max FTE, the
accumulated demand equals the summed per-activity FTE contributions, the
reported overload percentage is `demand/max*100` rounded to one decimal
(Python `round`), and every activity touched by at least one bottleneck
receives variance multiplier `1 + 0.2 × (distinct overloaded skills
touching it)` capped at `2.0`; scenario B (two activities with skill
`x`, FTE 0.6 and 0.7, max FTE 1.0) yields one bottleneck with
`overload_pct = 130.0` and variance multiplier `1.2 > 1` for both. -/
theorem c8_skill_overload_amended (acts : List Activity)
    (k : String × String) (d : SkillDemandData) (aid : String) (m : ℚ) :
    ((check_skill_overload acts).skill_bottlenecks =
      (overloadedEntries (build_skill_demand acts)).map
        (fun e => mkBottleneck e.1 e.2)) ∧
    ((k, d) ∈ overloadedEntries (build_skill_demand acts) ↔
      (k, d) ∈ build_skill_demand acts ∧ d.total_fte > d.max_fte) ∧
    ((mkBottleneck k d).overload_pct =
      round1 (d.total_fte / d.max_fte * 100)) ∧
    (demandTotalOf (build_skill_demand acts) k = summedDemand acts k) ∧
    ((build_skill_demand acts).lookup k = some d →
      d.total_fte = summedDemand acts k) ∧
    ((check_skill_overload acts).variance_increase_map.lookup aid = some m →
      ∃ l, (check_skill_overload acts).activity_skill_risks.lookup aid =
          some l ∧
        m = min 2 (1 + (l.length : ℚ) * (1 / 5)) ∧ l.Nodup ∧
        (∀ s, s ∈ l ↔ s ∈ touchingSkills
          (overloadedEntries (build_skill_demand acts)) aid)) ∧
    (((check_skill_overload acts).variance_increase_map.lookup aid).isSome ↔
      touchingSkills (overloadedEntries (build_skill_demand acts)) aid
        ≠ []) ∧
    (check_skill_overload [scBActivity1, scBActivity2]).skill_bottlenecks.map
      SkillBottleneck.overload_pct = [130] ∧
    (check_skill_overload [scBActivity1, scBActivity2]).variance_increase_map
      = [("B1", 6 / 5), ("B2", 6 / 5)] ∧ (1 : ℚ) < 6 / 5 ∧
    summedDemand [scBActivity1, scBActivity2] ("x", "R") = 13 / 10 := by
  obtain ⟨hs1, hs2, hs3, hs4⟩ := scenarioB_eval
  refine ⟨rfl, ?_, rfl, summed_demand_eq acts k, ?_, ?_, ?_, hs1, hs2, hs3,
    hs4⟩
  · rw [overloadedEntries, List.mem_filter]
    simp only [decide_eq_true_eq]
  · intro h
    have hst := summed_demand_eq acts k
    rw [demandTotalOf, h] at hst
    exact hst
  · intro hm
    have hc := riskVar_char (overloadedEntries (build_skill_demand acts)) aid
    by_cases hts : touchingSkills
        (overloadedEntries (build_skill_demand acts)) aid = []
    · rw [show (check_skill_overload acts).variance_increase_map =
          ((overloadedEntries (build_skill_demand acts)).foldl riskVarStep
            ([], [])).2 from rfl, hc.2, if_pos hts] at hm
      cases hm
    · rw [show (check_skill_overload acts).variance_increase_map =
          ((overloadedEntries (build_skill_demand acts)).foldl riskVarStep
            ([], [])).2 from rfl, hc.2, if_neg hts] at hm
      refine ⟨(touchingSkills (overloadedEntries (build_skill_demand acts))
          aid).foldl addSkillIfAbsent [], ?_, ?_, ?_, ?_⟩
      · rw [show (check_skill_overload acts).activity_skill_risks =
            ((overloadedEntries (build_skill_demand acts)).foldl riskVarStep
              ([], [])).1 from rfl, hc.1, if_neg hts]
      · exact (Option.some.inj hm).symm
      · exact foldl_addSkill_nodup _ [] List.nodup_nil
      · intro s
        rw [foldl_addSkill_mem]
        simp
  · have hc := riskVar_char (overloadedEntries (build_skill_demand acts)) aid
    rw [show (check_skill_overload acts).variance_increase_map =
        ((overloadedEntries (build_skill_demand acts)).foldl riskVarStep
          ([], [])).2 from rfl, hc.2]
    by_cases hts : touchingSkills
        (overloadedEntries (build_skill_demand acts)) aid = []
    · rw [if_pos hts]
      simp [hts]
    · rw [if_neg hts]
      simp [hts]

/-- Concrete instantiation discharging the hypotheses of
`c8_skill_overload_amended`. -/
theorem c8_skill_overload_amended_witness :
    ∃ l, (check_skill_overload
        [scBActivity1, scBActivity2]).activity_skill_risks.lookup "B1" =
      some l ∧
      (6 / 5 : ℚ) = min 2 (1 + (l.length : ℚ) * (1 / 5)) ∧ l.Nodup ∧
      (∀ s, s ∈ l ↔ s ∈ touchingSkills (overloadedEntries
        (build_skill_demand [scBActivity1, scBActivity2])) "B1") := by
  have hthm := c8_skill_overload_amended [scBActivity1, scBActivity2]
    ("x", "R") (⟨0, 0, [], 0, 0⟩ : SkillDemandData) "B1" (6 / 5)
  have hmap := hthm.2.2.2.2.2.2.2.2.1
  have hm : (check_skill_overload
      [scBActivity1, scBActivity2]).variance_increase_map.lookup "B1" =
      some (6 / 5) := by
    rw [hmap, List.lookup]
    simp
  exact hthm.2.2.2.2.2.1 hm



theorem sorted_getD_le (s : List ℚ) (hs : s.Sorted (· ≤ ·)) (a b : ℕ)
    (hab : a ≤ b) (hbn : b < s.length) : s.getD a 0 ≤ s.getD b 0 := by
  rw [List.getD_eq_get _ _ (lt_of_le_of_lt hab hbn), List.getD_eq_get _ _ hbn]
  exact hs.rel_get_of_le (Fin.mk_le_mk.mpr hab)

theorem floor_idx_le (h : ℚ) (n : ℕ) (hn : 1 ≤ n) (_hh0 : 0 ≤ h)
    (hhn : h ≤ (n : ℚ) - 1) : (Int.floor h).toNat ≤ n - 1 := by
  have h1 : Int.floor h ≤ (n : ℤ) - 1 := by
    rw [Int.le_sub_one_iff]
    calc Int.floor h ≤ Int.floor ((n : ℚ) - 1) := Int.floor_le_floor hhn
    _ < n := by
        rw [show ((n : ℚ) - 1) = ((n - 1 : ℤ) : ℚ) by push_cast; ring,
          Int.floor_intCast]
        omega
  omega

theorem idx_cast_le (h : ℚ) (hh0 : 0 ≤ h) :
    (((Int.floor h).toNat : ℚ)) ≤ h := by
  rw [show (((Int.floor h).toNat : ℚ)) = ((Int.floor h).toNat : ℤ) by
    push_cast; ring, Int.toNat_of_nonneg (Int.floor_nonneg.mpr hh0)]
  exact Int.floor_le h

theorem idx_cast_gt (h : ℚ) (hh0 : 0 ≤ h) :
    h < (((Int.floor h).toNat : ℚ)) + 1 := by
  rw [show (((Int.floor h).toNat : ℚ)) = ((Int.floor h).toNat : ℤ) by
    push_cast; ring, Int.toNat_of_nonneg (Int.floor_nonneg.mpr hh0)]
  exact Int.lt_floor_add_one h

theorem interpAt_ge (s : List ℚ) (hs : s.Sorted (· ≤ ·)) (hn : 1 ≤ s.length)
    (h : ℚ) (hh0 : 0 ≤ h) (hhn : h ≤ (s.length : ℚ) - 1) :
    s.getD (Int.floor h).toNat 0 ≤ interpAt s h := by
  rw [interpAt]
  have hij : (Int.floor h).toNat ≤ min ((Int.floor h).toNat + 1) (s.length - 1) := by
    have := floor_idx_le h s.length hn hh0 hhn
    omega
  have hjn : min ((Int.floor h).toNat + 1) (s.length - 1) < s.length := by omega
  have hd : 0 ≤ s.getD (min ((Int.floor h).toNat + 1) (s.length - 1)) 0 -
      s.getD (Int.floor h).toNat 0 := by
    have := sorted_getD_le s hs _ _ hij hjn
    linarith
  nlinarith [idx_cast_le h hh0]

theorem interpAt_le (s : List ℚ) (hs : s.Sorted (· ≤ ·)) (hn : 1 ≤ s.length)
    (h : ℚ) (hh0 : 0 ≤ h) (hhn : h ≤ (s.length : ℚ) - 1) :
    interpAt s h ≤ s.getD (min ((Int.floor h).toNat + 1) (s.length - 1)) 0 := by
  rw [interpAt]
  have hij : (Int.floor h).toNat ≤ min ((Int.floor h).toNat + 1) (s.length - 1) := by
    have := floor_idx_le h s.length hn hh0 hhn
    omega
  have hjn : min ((Int.floor h).toNat + 1) (s.length - 1) < s.length := by omega
  have hd : 0 ≤ s.getD (min ((Int.floor h).toNat + 1) (s.length - 1)) 0 -
      s.getD (Int.floor h).toNat 0 := by
    have := sorted_getD_le s hs _ _ hij hjn
    linarith
  nlinarith [idx_cast_gt h hh0, idx_cast_le h hh0]

theorem interpAt_mono (s : List ℚ) (hs : s.Sorted (· ≤ ·))
    (hn : 1 ≤ s.length) (h1 h2 : ℚ) (h10 : 0 ≤ h1) (h12 : h1 ≤ h2)
    (h2n : h2 ≤ (s.length : ℚ) - 1) : interpAt s h1 ≤ interpAt s h2 := by
  have h20 : 0 ≤ h2 := le_trans h10 h12
  have h1n : h1 ≤ (s.length : ℚ) - 1 := le_trans h12 h2n
  have hi12 : (Int.floor h1).toNat ≤ (Int.floor h2).toNat :=
    Int.toNat_le_toNat (Int.floor_le_floor h12)
  by_cases heq : (Int.floor h1).toNat = (Int.floor h2).toNat
  · rw [interpAt, interpAt, heq]
    have hi2n := floor_idx_le h2 s.length hn h20 h2n
    have hjn : min ((Int.floor h2).toNat + 1) (s.length - 1) < s.length := by
      omega
    have hd : 0 ≤ s.getD (min ((Int.floor h2).toNat + 1) (s.length - 1)) 0 -
        s.getD (Int.floor h2).toNat 0 := by
      have := sorted_getD_le s hs ((Int.floor h2).toNat)
        (min ((Int.floor h2).toNat + 1) (s.length - 1)) (by omega) hjn
      linarith
    nlinarith
  · have hlt : (Int.floor h1).toNat < (Int.floor h2).toNat :=
      lt_of_le_of_ne hi12 heq
    have hi2n : (Int.floor h2).toNat ≤ s.length - 1 :=
      floor_idx_le h2 s.length hn h20 h2n
    calc interpAt s h1
        ≤ s.getD (min ((Int.floor h1).toNat + 1) (s.length - 1)) 0 :=
          interpAt_le s hs hn h1 h10 h1n
      _ ≤ s.getD (Int.floor h2).toNat 0 :=
          sorted_getD_le s hs _ _ (by omega) (by omega)
      _ ≤ interpAt s h2 := interpAt_ge s hs hn h2 h20 h2n

theorem percentile_mono (l : List ℚ) (hl : l ≠ []) (q1 q2 : ℚ)
    (hq0 : 0 ≤ q1) (hq12 : q1 ≤ q2) (hq2 : q2 ≤ 100) :
    percentile l q1 ≤ percentile l q2 := by
  have hperm := List.mergeSort_perm l (fun a b : ℚ => a ≤ b)
  have hlen : (l.mergeSort (fun a b : ℚ => a ≤ b)).length = l.length :=
    hperm.length_eq
  have hn : 1 ≤ (l.mergeSort (fun a b : ℚ => a ≤ b)).length := by
    rw [hlen]
    exact List.length_pos.mpr hl
  have hs : (l.mergeSort (fun a b : ℚ => a ≤ b)).Sorted (· ≤ ·) :=
    List.sorted_mergeSort' l
  rw [percentile, percentile]
  rw [if_neg (by omega), if_neg (by omega)]
  have hc : (1 : ℚ) ≤ ((l.mergeSort (fun a b : ℚ => a ≤ b)).length : ℚ) := by
    exact_mod_cast hn
  apply interpAt_mono _ hs hn
  · have := mul_le_mul_of_nonneg_left hq0
      (show (0 : ℚ) ≤ ((l.mergeSort (fun a b : ℚ => a ≤ b)).length : ℚ) - 1 by
        linarith)
    nlinarith
  · have := mul_le_mul_of_nonneg_left hq12
      (show (0 : ℚ) ≤ ((l.mergeSort (fun a b : ℚ => a ≤ b)).length : ℚ) - 1 by
        linarith)
    linarith
  · nlinarith

theorem percentile_nonneg (l : List ℚ) (hl : l ≠ [])
    (hpos : ∀ x ∈ l, 0 ≤ x) (q : ℚ) (hq0 : 0 ≤ q) (hq1 : q ≤ 100) :
    0 ≤ percentile l q := by
  have hperm := List.mergeSort_perm l (fun a b : ℚ => a ≤ b)
  have hlen : (l.mergeSort (fun a b : ℚ => a ≤ b)).length = l.length :=
    hperm.length_eq
  have hn : 1 ≤ (l.mergeSort (fun a b : ℚ => a ≤ b)).length := by
    rw [hlen]
    exact List.length_pos.mpr hl
  have hs : (l.mergeSort (fun a b : ℚ => a ≤ b)).Sorted (· ≤ ·) :=
    List.sorted_mergeSort' l
  have hc : (1 : ℚ) ≤ ((l.mergeSort (fun a b : ℚ => a ≤ b)).length : ℚ) := by
    exact_mod_cast hn
  rw [percentile, if_neg (by omega)]
  have hh0 : 0 ≤ (((l.mergeSort (fun a b : ℚ => a ≤ b)).length : ℚ) - 1) *
      q / 100 := by
    have := mul_le_mul_of_nonneg_left hq0
      (show (0 : ℚ) ≤ ((l.mergeSort (fun a b : ℚ => a ≤ b)).length : ℚ) - 1 by
        linarith)
    nlinarith
  have hhn : (((l.mergeSort (fun a b : ℚ => a ≤ b)).length : ℚ) - 1) *
      q / 100 ≤ ((l.mergeSort (fun a b : ℚ => a ≤ b)).length : ℚ) - 1 := by
    nlinarith
  refine le_trans ?_ (interpAt_ge _ hs hn _ hh0 hhn)
  set i := (Int.floor ((((l.mergeSort (fun a b : ℚ => a ≤ b)).length : ℚ) - 1)
    * q / 100)).toNat with hi
  have hin : i < (l.mergeSort (fun a b : ℚ => a ≤ b)).length := by
    have := floor_idx_le _ _ hn hh0 hhn
    omega
  rw [List.getD_eq_get _ _ hin]
  exact hpos _ (hperm.subset (List.get_mem _ i hin))

theorem pyInt_eq_floor (q : ℚ) (h : 0 ≤ q) : pyInt q = Int.floor q := by
  rw [pyInt, if_neg (not_lt.mpr h)]

theorem le_foldl_max (xs : List ℚ) :
    ∀ a b : ℚ, a ≤ b → a ≤ xs.foldl max b := by
  induction xs with
  | nil => intro a b h; simpa using h
  | cons x rest ih =>
    intro a b h
    rw [List.foldl_cons]
    exact ih a (max b x) (le_trans h (le_max_left _ _))

theorem listMaxD_nonneg (xs : List ℚ) (d : ℚ) (hd : 0 ≤ d)
    (hx : ∀ x ∈ xs, 0 ≤ x) : 0 ≤ listMaxD xs d := by
  cases xs with
  | nil => exact hd
  | cons x rest =>
    exact le_foldl_max rest 0 x (hx x (List.mem_cons_self _ _))

theorem forwardPass_nonneg (g : Graph) (durs : List (String × ℚ))
    (hdurs : ∀ p ∈ durs, 0 ≤ p.2) :
    ∀ (order : List String) (es ef : List (String × ℚ)),
      (∀ p ∈ ef, 0 ≤ p.2) →
      ∀ p ∈ (forwardPass g durs order (es, ef)).2, 0 ≤ p.2 := by
  intro order
  induction order with
  | nil =>
    intro es ef hef p hp
    exact hef p hp
  | cons node rest ih =>
    intro es ef hef p hp
    rw [forwardPass] at hp
    cases hld : durs.lookup node with
    | none =>
      simp only [hld] at hp
      exact ih es ef hef p hp
    | some d =>
      simp only [hld] at hp
      apply ih _ _ _ p hp
      intro q hq
      rcases List.mem_append.1 hq with hq | hq
      · exact hef q hq
      · have hq2 : q = (node, (if ((predsOf g node).map
            (fun pr => lookupD ef pr 0)).isEmpty then 0
            else listMaxD ((predsOf g node).map (fun pr => lookupD ef pr 0)) 0)
            + d) := by
          simpa using hq
        have hpf : ∀ x ∈ (predsOf g node).map (fun pr => lookupD ef pr 0),
            0 ≤ x := by
          intro x hx
          obtain ⟨pr, _, rfl⟩ := List.mem_map.1 hx
          rw [lookupD]
          cases hlk : ef.lookup pr with
          | none => exact le_refl 0
          | some v => exact hef (pr, v) (lookup_mem hlk)
        have hstart : (0 : ℚ) ≤ if ((predsOf g node).map
            (fun pr => lookupD ef pr 0)).isEmpty then 0
            else listMaxD ((predsOf g node).map (fun pr => lookupD ef pr 0)) 0 := by
          split
          · exact le_refl 0
          · exact listMaxD_nonneg _ 0 (le_refl 0) hpf
        have hd0 : 0 ≤ d := hdurs (node, d) (lookup_mem hld)
        rw [hq2]
        simpa using add_nonneg hstart hd0

theorem cpl_nonneg (g : Graph) (durs : List (String × ℚ))
    (hdurs : ∀ p ∈ durs, 0 ≤ p.2) (q : ℚ)
    (h : compute_critical_path_length g durs = Except.ok q) : 0 ≤ q := by
  rw [compute_critical_path_length] at h
  cases ht : topoSort g with
  | none =>
    rw [ht] at h
    simp [nxErrorCatches] at h
  | some ord =>
    rw [ht] at h
    have h2 := Except.ok.inj h
    rw [← h2]
    split
    · exact le_refl 0
    · apply listMaxD_nonneg _ 0 (le_refl 0)
      intro x hx
      obtain ⟨p, hp, rfl⟩ := List.mem_map.1 hx
      exact forwardPass_nonneg g durs hdurs ord [] [] (by simp) p hp

theorem simulate_pos (sq : ℚ → ℚ) (rng : ℕ → ℚ) (i : ℕ) (a : Activity)
    (params : Option UncertaintyParams) (d : ℚ) (i2 : ℕ)
    (h : simulate_activity_duration sq rng i a params = Except.ok (d, i2)) :
    (1 : ℚ) / 10 ≤ d := by
  cases params with
  | none =>
    simp only [simulate_activity_duration] at h
    rw [simulateStandard] at h
    split_ifs at h
    all_goals first
      | (injection Except.ok.inj h with h1 h2
         rw [← h1]
         exact le_max_left _ _)
      | simp at h
  | some p =>
    simp only [simulate_activity_duration] at h
    rw [simulateForensic] at h
    split_ifs at h
    all_goals first
      | (injection Except.ok.inj h with h1 h2
         rw [← h1]
         exact le_max_left _ _)
      | simp at h

theorem simulateAll_nonneg (sq : ℚ → ℚ) (rng : ℕ → ℚ)
    (pm : Option (List (String × UncertaintyParams))) :
    ∀ (acts : List (String × Activity)) (i : ℕ) (sd : List (String × ℚ))
      (i2 : ℕ),
      simulateAll sq rng pm acts i = Except.ok (sd, i2) →
      ∀ p ∈ sd, 0 ≤ p.2 := by
  intro acts
  induction acts with
  | nil =>
    intro i sd i2 h p hp
    injection Except.ok.inj h with h1 h2
    rw [← h1] at hp
    cases hp
  | cons pa rest ih =>
    obtain ⟨aid, a⟩ := pa
    intro i sd i2 h p hp
    simp only [simulateAll] at h
    revert h
    cases hsim : simulate_activity_duration sq rng i a (paramsFor pm aid) with
    | error e =>
      intro h
      cases h
    | ok di =>
      obtain ⟨dv, i1⟩ := di
      intro h
      have h2 : (match simulateAll sq rng pm rest i1 with
        | Except.error e =>
          (Except.error e : Except PyErr (List (String × ℚ) × ℕ))
        | Except.ok (ds, iend) => Except.ok ((aid, dv) :: ds, iend)) =
          Except.ok (sd, i2) := h
      clear h
      revert h2
      cases hrest2 : simulateAll sq rng pm rest i1 with
      | error e =>
        intro h2
        cases h2
      | ok dsi =>
        obtain ⟨ds, iend⟩ := dsi
        intro h2
        injection Except.ok.inj h2 with h1 h3
        rw [← h1] at hp
        rcases List.mem_cons.1 hp with hq | hq
        · rw [hq]
          have := simulate_pos sq rng i a _ dv i1 hsim
          simp only []
          linarith
        · exact ih i1 ds iend hrest2 p hq


theorem runSimulations_ok (sq : ℚ → ℚ) (rng : ℕ → ℚ)
    (acts : List (String × Activity)) (g : Graph)
    (pm : Option (List (String × UncertaintyParams))) :
    ∀ (fuel i : ℕ) (pds : List ℚ) (tallies : List (String × ℕ))
      (out : List ℚ × List (String × ℕ) × ℕ),
      runSimulations sq rng acts g pm fuel i pds tallies = Except.ok out →
      (∀ x ∈ pds, 0 ≤ x) →
      (∀ x ∈ out.1, 0 ≤ x) ∧ out.1.length = pds.length + fuel := by
  intro fuel
  induction fuel with
  | zero =>
    intro i pds tallies out h hp
    have h2 := Except.ok.inj h
    rw [← h2]
    exact ⟨hp, by simp⟩
  | succ n ih =>
    intro i pds tallies out h hp
    simp only [runSimulations] at h
    revert h
    cases hsim : simulateAll sq rng pm acts i with
    | error e =>
      intro h
      cases h
    | ok sdi =>
      obtain ⟨sd, i1⟩ := sdi
      intro h
      have hb : (match compute_critical_path_length g sd with
        | Except.error e =>
          (Except.error e : Except PyErr (List ℚ × List (String × ℕ) × ℕ))
        | Except.ok pd =>
          match compute_critical_path_activities g sd with
          | Except.error e => Except.error e
          | Except.ok critical =>
            runSimulations sq rng acts g pm n i1 (pds ++ [pd])
              (bumpTallies tallies critical)) = Except.ok out := h
      clear h
      revert hb
      cases hcpl : compute_critical_path_length g sd with
      | error e =>
        intro hb
        cases hb
      | ok pd =>
        intro hb
        have hc : (match compute_critical_path_activities g sd with
          | Except.error e =>
            (Except.error e : Except PyErr (List ℚ × List (String × ℕ) × ℕ))
          | Except.ok critical =>
            runSimulations sq rng acts g pm n i1 (pds ++ [pd])
              (bumpTallies tallies critical)) = Except.ok out := hb
        clear hb
        revert hc
        cases hcpa : compute_critical_path_activities g sd with
        | error e =>
          intro hc
          cases hc
        | ok critical =>
          intro hc
          have hsd : ∀ p ∈ sd, 0 ≤ p.2 :=
            simulateAll_nonneg sq rng pm acts i sd i1 hsim
          have hpd : 0 ≤ pd := by
            apply cpl_nonneg g sd _ pd hcpl
            exact hsd
          have hnext : ∀ x ∈ pds ++ [pd], 0 ≤ x := by
            intro x hx
            rcases List.mem_append.1 hx with hx | hx
            · exact hp x hx
            · rw [List.mem_singleton.1 hx]
              exact hpd
          obtain ⟨ha, hb2⟩ := ih i1 (pds ++ [pd]) (bumpTallies tallies critical)
            out hc hnext
          refine ⟨ha, ?_⟩
          rw [hb2]
          simp
          omega

/-- C3: whenever `monte_carlo_forecast` returns a result, it ran at least
one simulation, reports exactly `n` simulations, its reported percentiles
are the integer floors of the 50th/80th/90th/95th interpolated percentiles
of the simulated project-duration sample, these satisfy
`p50 ≤ p80 ≤ p90 ≤ p95`, and each activity's criticality index is its
critical-path tally divided by the number of simulations. -/
theorem c3_percentile_ordering (sq : ℚ → ℚ) (rng : ℕ → ℚ)
    (twin : DigitalTwin) (n : ℕ)
    (pm : Option (List (String × UncertaintyParams))) (r : ForecastResult)
    (h : monte_carlo_forecast sq rng twin n pm = Except.ok r) :
    1 ≤ n ∧ r.num_simulations = n ∧ r.p50 ≤ r.p80 ∧ r.p80 ≤ r.p90 ∧
    r.p90 ≤ r.p95 ∧
    ∃ pds tallies iEnd,
      runSimulations sq rng twin.activities twin.graph pm n 0 []
        (twin.activities.map (fun p => (p.1, 0))) =
        Except.ok (pds, tallies, iEnd) ∧
      pds ≠ [] ∧
      r.p50 = ⌊percentile pds 50⌋ ∧ r.p80 = ⌊percentile pds 80⌋ ∧
      r.p90 = ⌊percentile pds 90⌋ ∧ r.p95 = ⌊percentile pds 95⌋ ∧
      r.criticality_indices =
        tallies.map (fun p => (p.1, (p.2 : ℚ) / (n : ℚ))) := by
  rw [monte_carlo_forecast] at h
  revert h
  cases hrs : runSimulations sq rng twin.activities twin.graph pm n 0 []
      (twin.activities.map (fun p => (p.1, 0))) with
  | error e =>
    intro h
    cases h
  | ok out =>
    obtain ⟨pds, tallies, iEnd⟩ := out
    intro h
    dsimp only at h
    split_ifs at h with hemp
    obtain ⟨hnn, hlen⟩ := runSimulations_ok sq rng twin.activities
      twin.graph pm n 0 [] (twin.activities.map (fun p => (p.1, 0)))
      (pds, tallies, iEnd) hrs (by intro x hx; cases hx)
    have hne : pds ≠ [] := by
      intro hh
      rw [hh] at hemp
      simp at hemp
    have hn1 : 1 ≤ n := by
      have hl2 : pds.length = 0 + n := by simpa using hlen
      have hpos := List.length_pos.mpr hne
      omega
    have hnn2 : ∀ x ∈ pds, 0 ≤ x := hnn
    have hp50 : 0 ≤ percentile pds 50 :=
      percentile_nonneg pds hne hnn2 50 (by norm_num) (by norm_num)
    have hp80 : 0 ≤ percentile pds 80 :=
      percentile_nonneg pds hne hnn2 80 (by norm_num) (by norm_num)
    have hp90 : 0 ≤ percentile pds 90 :=
      percentile_nonneg pds hne hnn2 90 (by norm_num) (by norm_num)
    have hp95 : 0 ≤ percentile pds 95 :=
      percentile_nonneg pds hne hnn2 95 (by norm_num) (by norm_num)
    cases h
    refine ⟨hn1, rfl, ?_, ?_, ?_, pds, tallies, iEnd, rfl, hne,
      pyInt_eq_floor _ hp50, pyInt_eq_floor _ hp80, pyInt_eq_floor _ hp90,
      pyInt_eq_floor _ hp95, rfl⟩
    · rw [pyInt_eq_floor _ hp50, pyInt_eq_floor _ hp80]
      exact Int.floor_le_floor (percentile_mono pds hne 50 80 (by norm_num)
        (by norm_num) (by norm_num))
    · rw [pyInt_eq_floor _ hp80, pyInt_eq_floor _ hp90]
      exact Int.floor_le_floor (percentile_mono pds hne 80 90 (by norm_num)
        (by norm_num) (by norm_num))
    · rw [pyInt_eq_floor _ hp90, pyInt_eq_floor _ hp95]
      exact Int.floor_le_floor (percentile_mono pds hne 90 95 (by norm_num)
        (by norm_num) (by norm_num))

/-- Concrete instantiation discharging the hypothesis of
`c3_percentile_ordering` on the one-activity twin with one simulation. -/
theorem c3_percentile_ordering_witness :
    ∃ r : ForecastResult, monte_carlo_forecast wSq wRng wTwin 1 none =
      Except.ok r ∧ r.p50 ≤ r.p80 ∧ r.p80 ≤ r.p90 ∧ r.p90 ≤ r.p95 ∧
      r.num_simulations = 1 := by
  obtain ⟨-, h2, h3, h4, h5, -⟩ :=
    c3_percentile_ordering wSq wRng wTwin 1 none wForecast wForecast_eval
  exact ⟨wForecast, wForecast_eval, h3, h4, h5, h2⟩

end ScheduleRisk
